import Mathlib

/-!
# Verification of the Bitrix24 status-monitor bot

A shallow embedding of the incident-tracking and monitoring core of the
repository (services/incident_tracker.py, services/alert_deduplicator.py,
services/status_monitor.py, utils/time_utils.py, config/config.py) together
with theorems settling the specification claims.

Modelling conventions:
* Timestamps (`datetime` values from `get_msk_time()` and floats from
  `time.time()`) are modelled as integers (seconds).  Every call of
  `get_msk_time()` / `time.time()` whose value flows into program state is
  modelled as consuming the next element of an explicit clock stream, or as
  an explicit time argument; calls whose value is only logged are omitted.
* The SQLite `incidents` table is a list of rows plus the AUTOINCREMENT
  counter.  `isoformat`/`fromisoformat` round-trip, so the stored
  `start_time`/`end_time` TEXT columns are modelled directly as integers.
* Python `str(...)` decimal rendering and `strftime` are external library
  functions; they are modelled concretely (decimal digits, civil-calendar
  conversion) so that everything evaluates.
-/

namespace Botpy

/-! ## Decimal rendering (model of Python str() on integers) -/

/-- The character for a single decimal digit. -/
def digitCh (n : Nat) : Char :=
  match n with
  | 0 => '0' | 1 => '1' | 2 => '2' | 3 => '3' | 4 => '4'
  | 5 => '5' | 6 => '6' | 7 => '7' | 8 => '8' | _ => '9'

/-- Decimal digit list, with explicit fuel so that evaluation is
structural; `fuel = n + 1` always suffices. -/
def natDigitsAux : Nat → Nat → List Char
  | 0, _ => []
  | fuel + 1, n =>
      if n < 10 then [digitCh n]
      else natDigitsAux fuel (n / 10) ++ [digitCh (n % 10)]

/-- Decimal digit list of a natural number (most significant first). -/
def natDigits (n : Nat) : List Char := natDigitsAux (n + 1) n

/-- Model of Python `str` on a natural number. -/
def natStr (n : Nat) : String := String.mk (natDigits n)

/-- Model of Python `str` on an integer. -/
def intStr (i : Int) : String :=
  if i < 0 then String.mk ('-' :: natDigits i.natAbs) else natStr i.toNat

/-- Model of Python format spec `{n:02}` on a nonnegative value. -/
def pad2 (n : Nat) : String :=
  if n < 10 then String.mk ('0' :: natDigits n) else natStr n

/-! ## utils/time_utils.py -/

/-- `format_duration(start_time)` from utils/time_utils.py: the difference
`now - start_time` in seconds rendered as HH:MM:SS.  In the source `now` is a
fresh `get_msk_time()` read, so it is an explicit argument here. -/
def format_duration (start_time now : Int) : String :=
  let seconds : Int := now - start_time
  let hours := seconds.ediv 3600
  let minutes := (seconds.emod 3600).ediv 60
  let secs := seconds.emod 60
  (if hours < 10 ∧ 0 ≤ hours then String.mk ('0' :: natDigits hours.toNat)
    else intStr hours)
  ++ ":" ++ pad2 minutes.toNat ++ ":" ++ pad2 secs.toNat

/-! ## Civil-calendar rendering (model of datetime.strftime) -/

/-- Days-to-civil-date conversion (the standard algorithm used to model
`strftime('%Y-%m-%d')` on an epoch-style timestamp). -/
def civilFromDays (z0 : Int) : Int × Nat × Nat :=
  let z := z0 + 719468
  let era : Int := (if 0 ≤ z then z else z - 146096).ediv 146097
  let doe : Nat := (z - era * 146097).toNat
  let yoe : Nat := (doe - doe / 1460 + doe / 36524 - doe / 146096) / 365
  let y : Int := (yoe : Int) + era * 400
  let doy : Nat := doe - (365 * yoe + yoe / 4 - yoe / 100)
  let mp : Nat := (5 * doy + 2) / 153
  let d : Nat := doy - (153 * mp + 2) / 5 + 1
  let m : Nat := if mp < 10 then mp + 3 else mp - 9
  ((if mp < 10 then y else y + 1), m, d)

/-- Model of `strftime('%Y-%m-%d')` on a timestamp in seconds. -/
def strfDate (t : Int) : String :=
  let c := civilFromDays (t.ediv 86400)
  intStr c.1 ++ "-" ++ pad2 c.2.1 ++ "-" ++ pad2 c.2.2

/-- Model of `strftime('%H:%M:%S')` on a timestamp in seconds. -/
def strfTime (t : Int) : String :=
  let s := (t.emod 86400).toNat
  pad2 (s / 3600) ++ ":" ++ pad2 (s % 3600 / 60) ++ ":" ++ pad2 (s % 60)

/-! ## services/database.py + services/incident_tracker.py: data model -/

/-- One row of the `incidents` table (services/database.py, init_tables). -/
structure Incident where
  id : Nat
  start_time : Int
  end_time : Option Int
  duration : Option String
  description : String
  region : String
  status : String
  components : Option String
  deriving Repr, DecidableEq

/-- The `incidents` table: rows in insertion order plus the AUTOINCREMENT
counter (SQLite assigns ids 1, 2, ...). -/
structure IncidentsDb where
  rows : List Incident
  nextId : Nat
  deriving Repr, DecidableEq

def IncidentsDb.empty : IncidentsDb := { rows := [], nextId := 1 }

/-- Number of rows with `status = 'active'`. -/
def IncidentsDb.activeCount (db : IncidentsDb) : Nat :=
  (db.rows.filter (fun r => r.status = "active")).length

/-- `SELECT * FROM incidents WHERE id = ?`. -/
def IncidentsDb.findRow (db : IncidentsDb) (i : Nat) : Option Incident :=
  db.rows.find? (fun r => r.id = i)

/-- One step of scanning for the row with maximal `start_time`. -/
def latestStep (acc : Option Incident) (x : Incident) : Option Incident :=
  match acc with
  | none => some x
  | some b => if b.start_time < x.start_time then some x else some b

/-- `SELECT * FROM incidents WHERE status = 'active' ORDER BY start_time DESC
LIMIT 1`: among the active rows, one with maximal `start_time` (SQLite leaves
the order of ties unspecified; this model keeps the first such row). -/
def IncidentsDb.selectActiveLatest (db : IncidentsDb) : Option Incident :=
  (db.rows.filter (fun r => r.status = "active")).foldl latestStep none

/-- The row update applied by `UPDATE incidents SET end_time = ?,
duration = ?, status = 'resolved' WHERE id = ?`. -/
def resolveFn (i : Nat) (endTime : Int) (dur : String) (r : Incident) :
    Incident :=
  if r.id = i then
    { r with end_time := some endTime, duration := some dur,
             status := "resolved" }
  else r

/-- `UPDATE incidents SET end_time = ?, duration = ?, status = 'resolved'
WHERE id = ?`. -/
def IncidentsDb.resolveRow (db : IncidentsDb) (i : Nat) (endTime : Int)
    (dur : String) : IncidentsDb :=
  { db with rows := db.rows.map (resolveFn i endTime dur) }

/-- `','.join(components) if components else None` from `start_incident`
(both `None` and the empty list are falsy). -/
def componentsStr (components : Option (List String)) : Option String :=
  match components with
  | none => none
  | some [] => none
  | some (c :: cs) => some (cs.foldl (fun acc s => acc ++ "," ++ s) c)

/-! ### IncidentTracker operations

The tracker state is the in-memory pointer `current_incident_id`; the store
is threaded explicitly because several trackers can share one database. -/

/-- `IncidentTracker.start_incident` (incident_tracker.py, lines 25-61):
guarded only by the in-memory `current_incident_id`; inserts a fresh
`status='active'` row when the pointer is unset.  `now` is the
`get_msk_time()` read used for `start_time`.  Returns (result, new pointer,
new store). -/
def start_incident (now : Int) (description region : String)
    (components : Option (List String)) (ptr : Option Nat)
    (db : IncidentsDb) : Option Nat × Option Nat × IncidentsDb :=
  match ptr with
  | some i => (some i, some i, db)
  | none =>
      let row : Incident :=
        { id := db.nextId, start_time := now, end_time := none,
          duration := none, description := description, region := region,
          status := "active", components := componentsStr components }
      (some db.nextId, some db.nextId,
        { rows := db.rows ++ [row], nextId := db.nextId + 1 })

/-- `IncidentTracker.end_incident` (incident_tracker.py, lines 63-106).
The source reads the clock twice: once for `end_time = get_msk_time()`
(`now1`) and once inside `format_duration` (`now2`).  Returns
(returned incident, new pointer, new store). -/
def end_incident (now1 now2 : Int) (ptr : Option Nat) (db : IncidentsDb) :
    Option Incident × Option Nat × IncidentsDb :=
  match ptr with
  | none => (none, none, db)
  | some i =>
      match db.findRow i with
      | none => (none, some i, db)
      | some inc =>
          let dur := format_duration inc.start_time now2
          let db' := db.resolveRow i now1 dur
          (db'.findRow i, none, db')

/-- `IncidentTracker.get_active_incident` (incident_tracker.py, lines
146-179): first consult the pointer, then fall back to the authoritative
`status='active'` query, re-adopting the found id.  Read-only on the store;
returns (result, new pointer). -/
def get_active_incident (ptr : Option Nat) (db : IncidentsDb) :
    Option Incident × Option Nat :=
  match ptr with
  | some i =>
      match db.rows.find? (fun r => r.id = i ∧ r.status = "active") with
      | some inc => (some inc, some i)
      | none =>
          match db.selectActiveLatest with
          | some inc => (some inc, some inc.id)
          | none => (none, some i)
  | none =>
      match db.selectActiveLatest with
      | some inc => (some inc, some inc.id)
      | none => (none, none)

/-- `IncidentTracker.restore_active_incident` (incident_tracker.py, lines
134-144): adopt the pointer of the active incident, if any. -/
def restore_active_incident (ptr : Option Nat) (db : IncidentsDb) :
    Option Nat :=
  (get_active_incident ptr db).2

/-! ### Sequences of tracker operations

`restart` models constructing a fresh `IncidentTracker` over the same
database (its `__init__` sets `current_incident_id = None`), i.e. a process
restart. -/

inductive TrackerOp where
  | start (now : Int) (description region : String)
      (components : Option (List String))
  | endInc (now1 now2 : Int)
  | getActive
  | restore
  | restart
  deriving Repr, DecidableEq

/-- Apply one tracker operation to (pointer, store). -/
def applyOp (op : TrackerOp) (s : Option Nat × IncidentsDb) :
    Option Nat × IncidentsDb :=
  match op with
  | .start now d rg c =>
      let o := start_incident now d rg c s.1 s.2
      (o.2.1, o.2.2)
  | .endInc n1 n2 =>
      let o := end_incident n1 n2 s.1 s.2
      (o.2.1, o.2.2)
  | .getActive => ((get_active_incident s.1 s.2).2, s.2)
  | .restore => (restore_active_incident s.1 s.2, s.2)
  | .restart => (none, s.2)

/-- Run a sequence of tracker operations. -/
def runOps (ops : List TrackerOp) (s : Option Nat × IncidentsDb) :
    Option Nat × IncidentsDb :=
  ops.foldl (fun s op => applyOp op s) s

/-- Invariant of a single tracker running over a store it created: every
active row is the one the in-memory pointer names, the pointer names an
existing row below the AUTOINCREMENT counter, all ids are below the counter,
and ids are pairwise distinct. -/
def TrackerInv (ptr : Option Nat) (db : IncidentsDb) : Prop :=
  (∀ r ∈ db.rows, r.status = "active" → ptr = some r.id) ∧
  (∀ i, ptr = some i → (∃ r ∈ db.rows, r.id = i) ∧ i < db.nextId) ∧
  (∀ r ∈ db.rows, r.id < db.nextId) ∧
  db.rows.Pairwise (fun a b => a.id ≠ b.id)

/-! ### CSV export (incident_tracker.py, export_to_csv_format) -/

/-- Model of the single-character `str.replace` calls used on the
description field. -/
def replaceChar (a b : Char) (s : String) : String :=
  String.mk (s.data.map (fun c => if c = a then b else c))

/-- `description.replace(',', ';').replace('\n', ' ')` from
`export_to_csv_format`. -/
def sanitizeDescription (s : String) : String :=
  replaceChar '\n' ' ' (replaceChar ',' ';' s)

/-- Python renders `None` as the string `None` inside an f-string; the
SELECT returns every column, so `.get(key, default)` yields the column
value (possibly `NULL`), never the default. -/
def optStr (o : Option String) : String :=
  match o with
  | none => "None"
  | some s => s

/-- The header line of the export (source line 226). -/
def csvHeader : String :=
  "Дата,Время начала,Время конца,Длительность,Регион,Компоненты,Описание"

/-- One CSV data line (source lines 233-251). -/
def csvLine (inc : Incident) : String :=
  strfDate inc.start_time ++ "," ++ strfTime inc.start_time ++ "," ++
  (match inc.end_time with
   | some e => strfTime e
   | none => "В процессе") ++ "," ++
  optStr inc.duration ++ "," ++ inc.region ++ "," ++
  optStr inc.components ++ ",\"" ++
  sanitizeDescription inc.description ++ "\""

/-- Insert a row into a list kept in descending `start_time` order. -/
def insertByStartDesc (r : Incident) : List Incident → List Incident
  | [] => [r]
  | b :: bs =>
      if b.start_time ≤ r.start_time then r :: b :: bs
      else b :: insertByStartDesc r bs

/-- `ORDER BY start_time DESC` over the whole table. -/
def sortByStartDesc (l : List Incident) : List Incident :=
  l.foldr insertByStartDesc []

/-- `IncidentTracker.export_to_csv_format` (incident_tracker.py, lines
218-256), as the list of lines the source joins with a newline. -/
def export_to_csv_format (db : IncidentsDb) : List String :=
  csvHeader :: (sortByStartDesc db.rows).map csvLine

/-- Number of comma-separated fields of a CSV line. -/
def commaCount (s : String) : Nat := s.data.count ','

/-- Field count of an (unquoted) CSV line: commas + 1. -/
def fieldCount (s : String) : Nat := commaCount s + 1

/-- A resolved incident whose comma-joined components hold two entries. -/
def multiCompRow : Incident :=
  { id := 1, start_time := 0, end_time := some 60,
    duration := some "00:01:00", description := "desc", region := "ru",
    status := "resolved", components := some "CRM,Telephony" }

/-- Store containing exactly `multiCompRow`. -/
def dbMultiComp : IncidentsDb := { rows := [multiCompRow], nextId := 2 }

/-- A store holding a single row left `active` (used to evaluate concrete
restart scenarios). -/
def activeRow1 : Incident :=
  { id := 1, start_time := 0, end_time := none, duration := none,
    description := "outage", region := "ru", status := "active",
    components := some "CRM" }

/-- Store containing exactly `activeRow1`. -/
def dbActive1 : IncidentsDb := { rows := [activeRow1], nextId := 2 }

/-! ## services/alert_deduplicator.py

The fingerprint is `md5(region|status|sorted_components)` in the source;
md5 of distinct keys is treated as distinct, so the hash is modelled by the
key string itself.  `time.time()` reads are explicit arguments: one inside
`_cleanup_old_alerts` and one for `now` in `should_send_alert`, in source
order. -/

/-- Deduplicator state (`AlertDeduplicator.__init__`): the history maps a
fingerprint to `(last_sent_at, repeat_count)`; `initNow` is the
`current_time()` read for `_last_cleanup`. -/
structure DedupState where
  dedup_window : Int
  group_interval : Int
  alert_history : List (String × Int × Nat)
  last_cleanup : Int
  cleanup_interval : Int
  deriving Repr, DecidableEq

/-- `AlertDeduplicator(dedup_window, group_interval)` constructed at time
`initNow`. -/
def dedupInit (initNow dedup_window group_interval : Int) : DedupState :=
  { dedup_window := dedup_window, group_interval := group_interval,
    alert_history := [], last_cleanup := initNow, cleanup_interval := 600 }

/-- Insert into a list kept in ascending order (model of Python
`sorted`). -/
def insertStringAsc (s : String) : List String → List String
  | [] => [s]
  | b :: bs => if s ≤ b then s :: b :: bs else b :: insertStringAsc s bs

/-- `sorted(components)`. -/
def sortStrings (l : List String) : List String :=
  l.foldr insertStringAsc []

/-- `AlertDeduplicator._generate_alert_hash` (lines 32-57), with md5
modelled as the identity on the pre-image key. -/
def generate_alert_hash (region status : String)
    (components : List String) : String :=
  region ++ "|" ++ status ++ "|" ++
    String.intercalate "," (sortStrings components)

/-- Dictionary lookup in the alert history. -/
def lookupHist (h : List (String × Int × Nat)) (k : String) :
    Option (Int × Nat) :=
  match h.find? (fun p => p.1 = k) with
  | some p => some p.2
  | none => none

/-- Dictionary assignment (Python dicts keep the insertion position of an
existing key and append a new one). -/
def setHist (h : List (String × Int × Nat)) (k : String) (v : Int × Nat) :
    List (String × Int × Nat) :=
  if (h.find? (fun p => p.1 = k)).isSome then
    h.map (fun p => if p.1 = k then (k, v) else p)
  else h ++ [(k, v)]

/-- `AlertDeduplicator._cleanup_old_alerts` (lines 122-147) at clock
reading `now`: when the cleanup interval has passed, drop records older
than `2 × dedup_window` and remember the sweep time. -/
def cleanup_old_alerts (now : Int) (st : DedupState) : DedupState :=
  if now - st.last_cleanup < st.cleanup_interval then st
  else
    { st with
        alert_history := st.alert_history.filter
          (fun p => ¬ p.2.1 < now - st.dedup_window * 2),
        last_cleanup := now }

/-- `AlertDeduplicator.should_send_alert` (lines 59-120).  `tCleanup` is
the `current_time()` read inside the cleanup sweep and `tNow` the later
`now = current_time()` read; returns (decision, new state). -/
def should_send_alert (tCleanup tNow : Int) (components : List String)
    (status region : String) (st : DedupState) : Bool × DedupState :=
  if status = "up" then (true, st)
  else
    let st1 := cleanup_old_alerts tCleanup st
    let key := generate_alert_hash region status components
    match lookupHist st1.alert_history key with
    | some (last_time, count) =>
        if tNow - last_time < st1.dedup_window then
          (false, { st1 with
              alert_history := setHist st1.alert_history key
                (last_time, count + 1) })
        else
          (true, { st1 with
              alert_history := setHist st1.alert_history key (tNow, 1) })
    | none =>
        (true, { st1 with
            alert_history := setHist st1.alert_history key (tNow, 1) })

/-! ## config/config.py — BotConfig seen through getattr

`BotConfig.__init__` assigns a fixed set of attributes whose values come
from environment variables (with defaults); the object is modelled as the
name-to-raw-value pairs it would expose to `getattr`. -/

/-- `os.getenv(k)`. -/
def getenv (env : List (String × String)) (k : String) : Option String :=
  (env.find? (fun p => p.1 = k)).map (fun p => p.2)

/-- `os.getenv(k, default)`. -/
def getenvD (env : List (String × String)) (k d : String) : String :=
  (getenv env k).getD d

/-- The attributes `BotConfig.__init__` assigns (config.py lines 14-38),
in source order, with the raw string each `os.getenv` call produces
(numeric/boolean parsing does not change the attribute set). -/
def botConfig (env : List (String × String)) : List (String × String) :=
  [("BOT_TOKEN", getenvD env "BOT_TOKEN" ""),
   ("URL", getenvD env "URL" "https://status.bitrix24.ru/"),
   ("CHECK_INTERVAL", getenvD env "CHECK_INTERVAL" "300"),
   ("GROUP_ID", getenvD env "GROUP_ID" ""),
   ("GROUP_IDS", getenvD env "GROUP_IDS" ""),
   ("SUBSCRIBERS_FILE", getenvD env "SUBSCRIBERS_FILE"
      "data/subscribers.json"),
   ("LOG_LEVEL", getenvD env "LOG_LEVEL" "INFO"),
   ("LOG_FILE", getenvD env "LOG_FILE" "logs/bot.log"),
   ("REQUEST_TIMEOUT", getenvD env "REQUEST_TIMEOUT" "10"),
   ("RETRY_ATTEMPTS", getenvD env "RETRY_ATTEMPTS" "3"),
   ("RETRY_DELAY", getenvD env "RETRY_DELAY" "5"),
   ("ALERT_ON_ISSUES", getenvD env "ALERT_ON_ISSUES" "true"),
   ("ALERT_ON_RECOVERY", getenvD env "ALERT_ON_RECOVERY" "true"),
   ("CACHE_TTL", getenvD env "CACHE_TTL" "30"),
   ("HEALTH_CHECK_INTERVAL", getenvD env "HEALTH_CHECK_INTERVAL" "3600"),
   ("ADMIN_CHAT_ID", getenvD env "ADMIN_CHAT_ID" "")]

/-- Python attribute lookup: `AttributeError` (carrying the attribute
name) when the object has no such attribute. -/
def getattrOf (obj : List (String × String)) (name : String) :
    Except String String :=
  match obj.find? (fun p => p.1 = name) with
  | some p => Except.ok p.2
  | none => Except.error name

/-- The first configuration reads `StatusMonitor.__init__` performs when
constructing its `AlertDeduplicator` (status_monitor.py lines 61-68):
`config.DEDUP_WINDOW`, then `config.GROUP_INTERVAL`; construction aborts
with `AttributeError` at the first missing attribute. -/
def statusMonitorInitDedupArgs (cfg : List (String × String)) :
    Except String (String × String) := do
  let w ← getattrOf cfg "DEDUP_WINDOW"
  let g ← getattrOf cfg "GROUP_INTERVAL"
  pure (w, g)

/-! ## services/status_monitor.py

The monitor is modelled over the tracker and deduplicator embeddings.
Conventions:
* `parse_status` is external; a run is driven by the list of snapshots the
  successive fetches return.
* The Telegram transport is external; sends succeed and return fresh
  message ids from a counter, and sends/edits are recorded as events.
* Clock reads whose value flows into state consume the explicit clock
  stream of the monitor state; reads used only for logging or for the
  fetch-duration metric are omitted.
* Message formatting (`format_status_message`) is out of scope; events
  record only which destinations were messaged and the metric calls.
* The theorems cover runs with `monitoring_enabled = True` and no
  exceptions from the transport. -/

/-- One parsed snapshot (`BitrixStatusParser.parse_status` result). -/
structure Snapshot where
  has_issues : Bool
  error : Bool
  message : String
  description : String
  region : String
  components : List String
  deriving Repr, DecidableEq

/-- The configuration attributes the monitor reads while running. -/
structure MonitorConfig where
  CHECK_INTERVAL : Nat
  ALERT_ON_ISSUES : Bool
  ALERT_ON_RECOVERY : Bool
  ADMIN_CHAT_ID : Option Int
  alert_groups : List Int
  deriving Repr, DecidableEq

/-- Observable actions of one run. -/
inductive Ev where
  | sleep (seconds : Nat)
  | fetch
  | recordCheck (ok : Bool)
  | adminWarn
  | send (group : Int) (msg : Nat)
  | edit (group : Int) (msg : Nat)
  | recordAlert
  | recordRecovery
  deriving Repr, DecidableEq

/-- Python truthiness of an `Optional[int]`. -/
def intTruthy (o : Option Int) : Bool :=
  match o with
  | none => false
  | some x => x ≠ 0

/-- Monitor state (`StatusMonitor.__init__` fields plus the shared tracker
pointer/store, the deduplicator state and the clock stream). -/
structure Mst where
  clock : List Int
  dedup : DedupState
  ptr : Option Nat
  db : IncidentsDb
  previous_status : Option Snapshot
  alert_message_ids : List (Int × Nat)
  issue_start_time : Option Int
  consecutive_errors : Nat
  last_successful_check : Option Int
  msgCounter : Nat
  deriving Repr, DecidableEq

/-- Consume the next clock reading (0 if the stream is exhausted). -/
def Mst.tick (st : Mst) : Int × Mst :=
  match st.clock with
  | [] => (0, st)
  | t :: ts => (t, { st with clock := ts })

/-- Fresh monitor state over a given clock, deduplicator and store. -/
def initMst (clock : List Int) (dedup : DedupState) (ptr : Option Nat)
    (db : IncidentsDb) : Mst :=
  { clock := clock, dedup := dedup, ptr := ptr, db := db,
    previous_status := none, alert_message_ids := [],
    issue_start_time := none, consecutive_errors := 0,
    last_successful_check := none, msgCounter := 0 }

/-- `StatusMonitor._send_to_all_groups` (lines 148-173): send a new
message (`is_new`) or edit the remembered one per destination; the
transport is modelled as always succeeding. -/
def sendToAllGroups (prevIds : List (Int × Nat)) (isNew : Bool) (st : Mst) :
    List Int → List (Int × Nat) × Mst × List Ev
  | [] => ([], st, [])
  | g :: gs =>
      match (if isNew then none
             else (prevIds.find? (fun p => p.1 = g)).map Prod.snd) with
      | none =>
          let mid := st.msgCounter
          let rest := sendToAllGroups prevIds isNew
            { st with msgCounter := mid + 1 } gs
          ((g, mid) :: rest.1, rest.2.1, Ev.send g mid :: rest.2.2)
      | some mid =>
          let rest := sendToAllGroups prevIds isNew st gs
          ((g, mid) :: rest.1, rest.2.1, Ev.edit g mid :: rest.2.2)

/-- `IncidentTracker.start_incident` as called by the monitor: the clock
is read only when the pointer is unset. -/
def startIncidentM (description region : String)
    (components : Option (List String)) (st : Mst) : Option Nat × Mst :=
  match st.ptr with
  | some i => (some i, st)
  | none =>
      let t := st.tick
      let o := start_incident t.1 description region components none
        t.2.db
      (o.1, { t.2 with ptr := o.2.1, db := o.2.2 })

/-- `IncidentTracker.end_incident` as called by the monitor: the clock is
read twice, and only after the row was fetched. -/
def endIncidentM (st : Mst) : Option Incident × Mst :=
  match st.ptr with
  | none => (none, st)
  | some i =>
      match st.db.findRow i with
      | none => (none, st)
      | some _ =>
          let t1 := st.tick
          let t2 := t1.2.tick
          let o := end_incident t1.1 t2.1 (some i) t2.2.db
          (o.1, { t2.2 with ptr := o.2.1, db := o.2.2 })

/-- `IncidentTracker.get_active_incident` as called by the monitor
(read-only on the store, may re-adopt the pointer). -/
def getActiveM (st : Mst) : Option Incident × Mst :=
  let r := get_active_incident st.ptr st.db
  (r.1, { st with ptr := r.2 })

/-- `AlertDeduplicator.should_send_alert` as called by the monitor: no
clock read for `up`, two (cleanup, now) for anything else. -/
def shouldSendM (components : List String) (status region : String)
    (st : Mst) : Bool × Mst :=
  if status = "up" then (true, st)
  else
    let t1 := st.tick
    let t2 := t1.2.tick
    let o := should_send_alert t1.1 t2.1 components status region
      t2.2.dedup
    (o.1, { t2.2 with dedup := o.2 })

/-- `StatusMonitor._handle_status_change` (lines 310-390). -/
def handleStatusChange (cfg : MonitorConfig) (cur : Snapshot) (st : Mst) :
    Mst × List Ev :=
  match st.previous_status with
  | none => (st, [])
  | some prev =>
    if !prev.has_issues && cur.has_issues then
      if cfg.ALERT_ON_ISSUES then
        let d := shouldSendM cur.components "down" cur.region st
        if !d.1 then
          ((startIncidentM cur.description cur.region
            (some cur.components) d.2).2, [])
        else
          let o := d.2.tick
          let st1 := { o.2 with issue_start_time := some o.1 }
          let st2 := (startIncidentM cur.description cur.region
            (some cur.components) st1).2
          let r := sendToAllGroups [] true st2 cfg.alert_groups
          ({ r.2.1 with alert_message_ids := r.1 },
            r.2.2 ++ [Ev.recordAlert])
      else (st, [])
    else if prev.has_issues && !cur.has_issues then
      let o :=
        if cfg.ALERT_ON_RECOVERY then
          let st1 := (endIncidentM st).2
          let st2 :=
            match st1.issue_start_time with
            | some _ => (st1.tick).2
            | none => st1
          let r := sendToAllGroups st2.alert_message_ids false st2
            cfg.alert_groups
          ({ r.2.1 with alert_message_ids := r.1 },
            r.2.2 ++ [Ev.recordRecovery])
        else (st, [])
      ({ o.1 with alert_message_ids := [], issue_start_time := none },
        o.2)
    else if prev.has_issues && cur.has_issues then
      if st.alert_message_ids ≠ [] ∧ st.issue_start_time.isSome then
        let st1 := (st.tick).2
        let r := sendToAllGroups st1.alert_message_ids false st1
          cfg.alert_groups
        ({ r.2.1 with alert_message_ids := r.1 }, r.2.2)
      else (st, [])
    else (st, [])

/-- `StatusMonitor._handle_first_check_with_issues` (lines 195-244). -/
def handleFirstCheckWithIssues (cfg : MonitorConfig) (cur : Snapshot)
    (active : Option Incident) (st : Mst) : Mst × List Ev :=
  let st0 :=
    match active with
    | none =>
        let o := st.tick
        (startIncidentM cur.description cur.region (some cur.components)
          { o.2 with issue_start_time := some o.1 }).2
    | some a => { st with issue_start_time := some a.start_time }
  let d := shouldSendM cur.components "down" cur.region st0
  if !d.1 then (d.2, [])
  else
    let r := sendToAllGroups [] true d.2 cfg.alert_groups
    let st1 := { r.2.1 with alert_message_ids := r.1 }
    if st1.alert_message_ids ≠ [] then (st1, r.2.2 ++ [Ev.recordAlert])
    else (st1, r.2.2)

/-- `StatusMonitor._handle_first_check_recovery` (lines 246-266). -/
def handleFirstCheckRecovery (cfg : MonitorConfig) (st : Mst) :
    Mst × List Ev :=
  let o := endIncidentM st
  match o.1 with
  | none => (o.2, [])
  | some incident =>
      let st1 := { o.2 with issue_start_time := some incident.start_time }
      let st2 := (st1.tick).2
      let r := sendToAllGroups [] true st2 cfg.alert_groups
      let st3 := { r.2.1 with alert_message_ids := r.1 }
      ({ st3 with alert_message_ids := [], issue_start_time := none },
        r.2.2 ++ [Ev.recordRecovery])

/-- The informational all-clear notice of
`_handle_first_check_recent_incident`. -/
def sendInfoAllClear (cfg : MonitorConfig) (st : Mst) : Mst × List Ev :=
  if cfg.ALERT_ON_RECOVERY then
    let r := sendToAllGroups [] true st cfg.alert_groups
    ({ r.2.1 with alert_message_ids := r.1 }, r.2.2)
  else (st, [])

/-- `StatusMonitor._handle_first_check_recent_incident` (lines 268-308);
the 24h threshold is 86400 seconds. -/
def handleFirstCheckRecentIncident (cfg : MonitorConfig) (st : Mst) :
    Mst × List Ev :=
  match (sortByStartDesc st.db.rows).head? with
  | some r =>
      if r.status = "resolved" then
        match r.end_time with
        | some e =>
            let t := st.tick
            if t.1 - e < 86400 ∧ cfg.ALERT_ON_RECOVERY then
              let o := sendToAllGroups [] true t.2 cfg.alert_groups
              ({ o.2.1 with alert_message_ids := o.1 },
                o.2.2 ++ [Ev.recordRecovery])
            else (t.2, [])
        | none => (st, [])
      else sendInfoAllClear cfg st
  | none => sendInfoAllClear cfg st

/-- The successful-check part of the `_monitor_loop` body (lines 419-446):
first-check reconciliation against the store, or the status-change
comparison, followed by `previous_status := current`. -/
def successBody (cfg : MonitorConfig) (first_check : Bool) (cur : Snapshot)
    (st : Mst) : Mst × List Ev :=
  if first_check then
    let a := getActiveM st
    let b :=
      if cur.has_issues && cfg.ALERT_ON_ISSUES then
        handleFirstCheckWithIssues cfg cur a.1 a.2
      else if !cur.has_issues && a.1.isSome &&
          cfg.ALERT_ON_RECOVERY then
        handleFirstCheckRecovery cfg a.2
      else if !cur.has_issues then
        handleFirstCheckRecentIncident cfg a.2
      else (a.2, [])
    ({ b.1 with previous_status := some cur }, b.2)
  else
    let b := handleStatusChange cfg cur st
    ({ b.1 with previous_status := some cur }, b.2)

/-- One iteration of `StatusMonitor._monitor_loop` (lines 392-454) on the
snapshot the fetch returned; yields the next `first_check` flag, the new
state and the events.  The first iteration skips the leading sleep; the
error path sleeps and `continue`s; a successful iteration ends with the
trailing sleep (`first_check` is false by then). -/
def loopIter (cfg : MonitorConfig) (first_check : Bool) (cur : Snapshot)
    (st : Mst) : Bool × Mst × List Ev :=
  let evs : List Ev :=
    (if first_check then [] else [Ev.sleep cfg.CHECK_INTERVAL]) ++
      [Ev.fetch, Ev.recordCheck (!cur.error)]
  if cur.error then
    let st := { st with consecutive_errors := st.consecutive_errors + 1 }
    let warnEvs : List Ev :=
      if 5 ≤ st.consecutive_errors ∧ intTruthy cfg.ADMIN_CHAT_ID then
        [Ev.adminWarn]
      else []
    (first_check, st, evs ++ warnEvs ++ [Ev.sleep cfg.CHECK_INTERVAL])
  else
    let st0 := { st with consecutive_errors := 0 }
    let t := st0.tick
    let st1 := { t.2 with last_successful_check := some t.1 }
    let o := successBody cfg first_check cur st1
    (false, o.1, evs ++ o.2 ++ [Ev.sleep cfg.CHECK_INTERVAL])

/-- A run of the monitor loop over the snapshots successive fetches
return (monitoring enabled throughout). -/
def monitorLoop (cfg : MonitorConfig) (snaps : List Snapshot)
    (first_check : Bool) (st : Mst) : Mst × List Ev :=
  match snaps with
  | [] => (st, [])
  | cur :: rest =>
      let o := loopIter cfg first_check cur st
      let orest := monitorLoop cfg rest o.1 o.2.1
      (orest.1, o.2.2 ++ orest.2)

/-- Sleep or fetch events (the loop's own pacing actions). -/
def isSleepOrFetch : Ev → Bool
  | Ev.sleep _ => true
  | Ev.fetch => true
  | _ => false

/-- Sleep events between consecutive fetches of a trace (sleeps before the
first fetch and after the last are not counted). -/
def sleepGaps : List Ev → Option Nat → List Nat
  | [], _ => []
  | Ev.fetch :: rest, none => sleepGaps rest (some 0)
  | Ev.fetch :: rest, some c => c :: sleepGaps rest (some 0)
  | Ev.sleep _ :: rest, some c => sleepGaps rest (some (c + 1))
  | _ :: rest, acc => sleepGaps rest acc

/-- The steady-state pacing pattern: per further fetch, a trailing sleep
from the previous iteration, the fetch, and that iteration's own trailing
sleep. -/
def steadyPattern (interval n : Nat) : List Ev :=
  match n with
  | 0 => []
  | m + 1 => Ev.sleep interval :: Ev.fetch :: Ev.sleep interval ::
      steadyPattern interval m

/-- Number of administrative warnings in a trace. -/
def countWarns (evs : List Ev) : Nat := evs.count Ev.adminWarn

/-- A snapshot whose fetch/parse failed. -/
def errSnap : Snapshot :=
  { has_issues := false, error := true, message := "err",
    description := "", region := "", components := [] }

/-- A healthy snapshot. -/
def okSnap : Snapshot :=
  { has_issues := false, error := false, message := "ok",
    description := "", region := "ru", components := [] }

/-- A degraded snapshot. -/
def downSnap : Snapshot :=
  { has_issues := true, error := false, message := "down",
    description := "outage", region := "ru", components := ["CRM"] }

/-- Baseline configuration used by concrete runs. -/
def cfgBase : MonitorConfig :=
  { CHECK_INTERVAL := 300, ALERT_ON_ISSUES := true,
    ALERT_ON_RECOVERY := true, ADMIN_CHAT_ID := some 99,
    alert_groups := [10] }

/-- A fresh monitor over an empty store with an exhausted clock. -/
def freshMst : Mst := initMst [] (dedupInit 0 300 30) none IncidentsDb.empty

/-- Baseline configuration with recovery alerts disabled. -/
def cfgRecOff : MonitorConfig :=
  { CHECK_INTERVAL := 300, ALERT_ON_ISSUES := true,
    ALERT_ON_RECOVERY := false, ADMIN_CHAT_ID := none,
    alert_groups := [10] }

/-- Baseline configuration with down alerts disabled. -/
def cfgIssOff : MonitorConfig :=
  { CHECK_INTERVAL := 300, ALERT_ON_ISSUES := false,
    ALERT_ON_RECOVERY := true, ADMIN_CHAT_ID := none,
    alert_groups := [10] }

/-- A monitor mid-outage: previous snapshot degraded, tracker pointing at
the active row of `dbActive1`, one alert message outstanding. -/
def mstOutage : Mst :=
  { clock := [100, 101, 102, 103], dedup := dedupInit 0 300 30,
    ptr := some 1, db := dbActive1, previous_status := some downSnap,
    alert_message_ids := [(10, 7)], issue_start_time := some 0,
    consecutive_errors := 0, last_successful_check := none,
    msgCounter := 8 }

/-- A deduplicator that has just sent the (ru, down, [CRM]) alert. -/
def dedupSeeded : DedupState :=
  { dedup_window := 300, group_interval := 30,
    alert_history := [(generate_alert_hash "ru" "down" ["CRM"], 95, 1)],
    last_cleanup := 0, cleanup_interval := 600 }

/-- A healthy-history monitor whose deduplicator would suppress the next
(ru, down, [CRM]) alert. -/
def mstSuppressed : Mst :=
  { clock := [100, 101, 102, 103], dedup := dedupSeeded, ptr := none,
    db := IncidentsDb.empty, previous_status := some okSnap,
    alert_message_ids := [], issue_start_time := none,
    consecutive_errors := 0, last_successful_check := none,
    msgCounter := 0 }

/-- A healthy-history monitor with a fresh deduplicator. -/
def mstHealthy : Mst :=
  { clock := [100, 101, 102, 103], dedup := dedupInit 0 300 30,
    ptr := none, db := IncidentsDb.empty, previous_status := some okSnap,
    alert_message_ids := [], issue_start_time := none,
    consecutive_errors := 0, last_successful_check := none,
    msgCounter := 0 }

/-! ## Theorems -/

theorem activeCount_le_one_of_inv (ptr : Option Nat) (db : IncidentsDb)
    (h : TrackerInv ptr db) : db.activeCount ≤ 1 := by
  obtain ⟨h1, -, -, h4⟩ := h
  have hsub : (db.rows.filter fun r => r.status = "active").Pairwise
      (fun a b => a.id ≠ b.id) :=
    List.Pairwise.sublist (List.filter_sublist db.rows) h4
  unfold IncidentsDb.activeCount
  cases hfil : db.rows.filter (fun r => r.status = "active") with
  | nil => simp
  | cons a t =>
    cases t with
    | nil => simp
    | cons b t2 =>
      exfalso
      have hamem : a ∈ db.rows.filter (fun r => r.status = "active") := by
        rw [hfil]; exact List.mem_cons_self _ _
      have hbmem : b ∈ db.rows.filter (fun r => r.status = "active") := by
        rw [hfil]; exact List.mem_cons_of_mem _ (List.mem_cons_self _ _)
      have ha := List.mem_filter.mp hamem
      have hb := List.mem_filter.mp hbmem
      have hpa := h1 a ha.1 (by simpa using ha.2)
      have hpb := h1 b hb.1 (by simpa using hb.2)
      rw [hfil] at hsub
      have hne : a.id ≠ b.id := (List.pairwise_cons.mp hsub).1 b
        (List.mem_cons_self _ _)
      rw [hpa] at hpb
      exact hne (Option.some.inj hpb)

theorem selectActiveLatest_eq_none (db : IncidentsDb)
    (h : ∀ r ∈ db.rows, ¬ r.status = "active") :
    db.selectActiveLatest = none := by
  have hfil : db.rows.filter (fun r => r.status = "active") = [] := by
    rw [List.filter_eq_nil_iff]
    intro r hr
    simpa using h r hr
  simp [IncidentsDb.selectActiveLatest, hfil]

theorem get_active_ptr_of_inv (ptr : Option Nat) (db : IncidentsDb)
    (h : TrackerInv ptr db) : (get_active_incident ptr db).2 = ptr := by
  obtain ⟨h1, -, -, -⟩ := h
  cases ptr with
  | none =>
    have hsel : db.selectActiveLatest = none :=
      selectActiveLatest_eq_none db
        (fun r hr hact => Option.noConfusion (h1 r hr hact))
    simp only [get_active_incident]
    rw [hsel]
  | some i =>
    simp only [get_active_incident]
    split
    · rfl
    · next heq =>
      have hnone := List.find?_eq_none.mp heq
      have hsel : db.selectActiveLatest = none := by
        refine selectActiveLatest_eq_none db ?_
        intro r hr hact
        have hp := h1 r hr hact
        have hid : r.id = i := by
          injection hp with hp
          exact hp.symm
        have := hnone r hr
        simp [hid, hact] at this
      rw [hsel]

theorem applyOp_preserves_inv (op : TrackerOp) (s : Option Nat × IncidentsDb)
    (hop : op ≠ TrackerOp.restart) (h : TrackerInv s.1 s.2) :
    TrackerInv (applyOp op s).1 (applyOp op s).2 := by
  obtain ⟨ptr, db⟩ := s
  obtain ⟨h1, h2, h3, h4⟩ := h
  cases op with
  | start now d rg c =>
    cases ptr with
    | some i => exact ⟨h1, h2, h3, h4⟩
    | none =>
      refine ⟨?_, ?_, ?_, ?_⟩
      · intro r hr hact
        rcases List.mem_append.mp hr with hold | hnew
        · exact absurd (h1 r hold hact) (by simp)
        · simp only [List.mem_singleton] at hnew
          subst hnew
          rfl
      · intro i hi
        simp only [applyOp, start_incident] at hi
        injection hi with hi
        subst hi
        exact ⟨⟨_, List.mem_append.mpr (Or.inr (List.mem_singleton_self _)),
          rfl⟩, Nat.lt_succ_self _⟩
      · intro r hr
        rcases List.mem_append.mp hr with hold | hnew
        · exact Nat.lt_succ_of_lt (h3 r hold)
        · simp only [List.mem_singleton] at hnew
          subst hnew
          exact Nat.lt_succ_self _
      · refine List.pairwise_append.mpr ⟨h4, List.pairwise_singleton _ _, ?_⟩
        intro a ha b hb
        simp only [List.mem_singleton] at hb
        subst hb
        exact Nat.ne_of_lt (h3 a ha)
  | endInc n1 n2 =>
    cases ptr with
    | none =>
      refine ⟨h1, ?_, h3, h4⟩
      intro i hi
      exact Option.noConfusion hi
    | some i =>
      obtain ⟨⟨r0, hr0mem, hr0id⟩, -⟩ := h2 i rfl
      have hsome : (db.rows.find? (fun r => r.id = i)).isSome :=
        List.find?_isSome.mpr ⟨r0, hr0mem, by simp [hr0id]⟩
      obtain ⟨inc, hinc⟩ := Option.isSome_iff_exists.mp hsome
      simp only [applyOp, end_incident, IncidentsDb.findRow, hinc,
        IncidentsDb.resolveRow]
      refine ⟨?_, ?_, ?_, ?_⟩
      · intro r hr hact
        obtain ⟨r', hr'mem, hr'eq⟩ := List.mem_map.mp hr
        by_cases hid : r'.id = i
        · rw [resolveFn, if_pos hid] at hr'eq
          rw [← hr'eq] at hact
          simp at hact
        · rw [resolveFn, if_neg hid] at hr'eq
          subst hr'eq
          have hp := h1 r' hr'mem hact
          injection hp with hp
          exact absurd hp.symm hid
      · intro j hj
        exact Option.noConfusion hj
      · intro r hr
        obtain ⟨r', hr'mem, hr'eq⟩ := List.mem_map.mp hr
        have hid : r.id = r'.id := by
          rw [← hr'eq, resolveFn]
          by_cases hid : r'.id = i
          · rw [if_pos hid]
          · rw [if_neg hid]
        rw [hid]
        exact h3 r' hr'mem
      · refine List.Pairwise.map _ ?_ h4
        intro a b hab
        show ¬ (resolveFn i n1 _ a).id = (resolveFn i n1 _ b).id
        rw [resolveFn, resolveFn]
        by_cases hai : a.id = i <;> by_cases hbi : b.id = i
        · exact absurd (hai.trans hbi.symm) hab
        · rw [if_pos hai, if_neg hbi]
          simpa [hai] using fun hc => hbi hc.symm
        · rw [if_neg hai, if_pos hbi]
          simpa [hbi] using fun hc => hai hc
        · rw [if_neg hai, if_neg hbi]
          exact hab
  | getActive =>
    have := get_active_ptr_of_inv ptr db ⟨h1, h2, h3, h4⟩
    simpa [applyOp, this] using ⟨h1, h2, h3, h4⟩
  | restore =>
    have := get_active_ptr_of_inv ptr db ⟨h1, h2, h3, h4⟩
    simpa [applyOp, restore_active_incident, this] using ⟨h1, h2, h3, h4⟩
  | restart => exact absurd rfl hop

theorem empty_tracker_inv : TrackerInv none IncidentsDb.empty := by
  refine ⟨?_, ?_, ?_, ?_⟩ <;> simp [IncidentsDb.empty]

theorem runOps_preserves_inv (ops : List TrackerOp) :
    ∀ s : Option Nat × IncidentsDb, (∀ op ∈ ops, op ≠ TrackerOp.restart) →
    TrackerInv s.1 s.2 → TrackerInv (runOps ops s).1 (runOps ops s).2 := by
  induction ops with
  | nil => intro s _ h; exact h
  | cons op rest ih =>
    intro s hall h
    have hstep := applyOp_preserves_inv op s
      (hall op (List.mem_cons_self _ _)) h
    have : runOps (op :: rest) s = runOps rest (applyOp op s) := rfl
    rw [this]
    exact ih (applyOp op s) (fun o ho => hall o (List.mem_cons_of_mem _ ho))
      hstep

/-- C1 (counterexample): `start_incident` consults only the in-memory
`current_incident_id`, never the store, so a tracker whose pointer is unset
(e.g. after a restart) inserts a second `status='active'` row even though the
store already holds an active incident — the at-most-one-active claim and
the re-query claim both fail. -/
theorem start_incident_double_active_cex :
    ((start_incident 5 "outage" "ru" (some ["CRM"]) none
        dbActive1).2.2).activeCount = 2 ∧
    (runOps [TrackerOp.start 0 "outage" "ru" (some ["CRM"]),
             TrackerOp.restart,
             TrackerOp.start 5 "outage" "ru" (some ["CRM"])]
        (none, IncidentsDb.empty)).2.activeCount = 2 ∧
    ¬ (runOps [TrackerOp.start 0 "outage" "ru" (some ["CRM"]),
               TrackerOp.restart,
               TrackerOp.start 5 "outage" "ru" (some ["CRM"])]
        (none, IncidentsDb.empty)).2.activeCount ≤ 1 := by
  refine ⟨by rfl, by rfl, by decide⟩

/-- C1 (amended): `start_incident` is a no-op returning the cached id
whenever the in-memory `current_incident_id` is set (it trusts cached state
rather than re-querying the store); consequently the at-most-one-active-row
invariant holds for every restart-free sequence of operations of a single
tracker over an initially empty store, but not across restarts. -/
theorem tracker_at_most_one_active_amended :
    (∀ (now : Int) (d rg : String) (c : Option (List String)) (i : Nat)
        (db : IncidentsDb),
      start_incident now d rg c (some i) db = (some i, some i, db)) ∧
    ∀ ops : List TrackerOp, (∀ op ∈ ops, op ≠ TrackerOp.restart) →
      ((runOps ops (none, IncidentsDb.empty)).2).activeCount ≤ 1 := by
  constructor
  · intro now d rg c i db
    rfl
  · intro ops hops
    exact activeCount_le_one_of_inv _ _
      (runOps_preserves_inv ops (none, IncidentsDb.empty) hops
        empty_tracker_inv)

/-- Witness for `tracker_at_most_one_active_amended` at a concrete
operation sequence. -/
theorem foldl_latestStep_spec (l : List Incident) :
    ∀ (acc : Option Incident) (r : Incident),
    (∀ x ∈ l, x = r ∨ x.start_time < r.start_time) →
    (r ∈ l ∨ acc = some r) →
    (∀ b, acc = some b → b = r ∨ b.start_time < r.start_time) →
    l.foldl latestStep acc = some r := by
  induction l with
  | nil =>
    intro acc r _ hin hacc
    rcases hin with h | h
    · exact absurd h (List.not_mem_nil r)
    · exact h
  | cons a t ih =>
    intro acc r hbound hin hacc
    rw [List.foldl_cons]
    have hbt : ∀ x ∈ t, x = r ∨ x.start_time < r.start_time :=
      fun x hx => hbound x (List.mem_cons_of_mem _ hx)
    have hba := hbound a (List.mem_cons_self _ _)
    cases acc with
    | none =>
      rcases hba with hra | hlt
      · subst hra
        exact ih (some a) a hbt (Or.inr rfl) (fun b hb => Or.inl (Option.some.inj hb).symm)
      · have hrt : r ∈ t := by
          rcases hin with hmem | habs
          · rcases List.mem_cons.mp hmem with he | ht
            · subst he; exact absurd hlt (lt_irrefl _)
            · exact ht
          · exact Option.noConfusion habs
        exact ih (some a) r hbt (Or.inl hrt)
          (fun b hb => Or.inr ((Option.some.inj hb) ▸ hlt))
    | some b =>
      have hbr := hacc b rfl
      show List.foldl latestStep
        (if b.start_time < a.start_time then some a else some b) t = some r
      by_cases hc : b.start_time < a.start_time
      · rw [if_pos hc]
        rcases hba with hra | hlt
        · subst hra
          exact ih (some a) a hbt (Or.inr rfl)
            (fun c hcx => Or.inl (Option.some.inj hcx).symm)
        · have hrt : r ∈ t := by
            rcases hin with hmem | hacc'
            · rcases List.mem_cons.mp hmem with he | ht
              · subst he; exact absurd hlt (lt_irrefl _)
              · exact ht
            · have hbrq := Option.some.inj hacc'
              subst hbrq
              rcases hbr with h | h
              · exact absurd hlt (h ▸ hc).asymm
              · exact absurd h (lt_irrefl _)
          exact ih (some a) r hbt (Or.inl hrt)
            (fun c hcx => Or.inr ((Option.some.inj hcx) ▸ hlt))
      · rw [if_neg hc]
        rcases hbr with hbreq | hblt
        · subst hbreq
          exact ih (some b) b hbt (Or.inr rfl)
            (fun c hcx => Or.inl (Option.some.inj hcx).symm)
        · have hrt : r ∈ t := by
            rcases hin with hmem | hacc'
            · rcases List.mem_cons.mp hmem with he | ht
              · subst he
                exact absurd hblt hc
              · exact ht
            · have := Option.some.inj hacc'
              subst this
              exact absurd hblt (lt_irrefl _)
          exact ih (some b) r hbt (Or.inl hrt)
            (fun c hcx => Or.inr ((Option.some.inj hcx) ▸ hblt))

/-- C5: a fresh tracker (pointer `None`) over a store holding a row left
`active` finds exactly that row — the active row with the (strictly)
highest `start_time` — re-adopts its id into the in-memory pointer, and the
lookup leaves the store unchanged (no duplicate is created). -/
theorem get_active_incident_restart_recovery (db : IncidentsDb)
    (r : Incident) (hmem : r ∈ db.rows) (hact : r.status = "active")
    (hmax : ∀ x ∈ db.rows, x.status = "active" → x ≠ r →
      x.start_time < r.start_time) :
    get_active_incident none db = (some r, some r.id) ∧
    runOps [TrackerOp.getActive] (none, db) = (some r.id, db) ∧
    runOps [TrackerOp.restore] (none, db) = (some r.id, db) := by
  have hsel : db.selectActiveLatest = some r := by
    unfold IncidentsDb.selectActiveLatest
    refine foldl_latestStep_spec _ none r ?_ ?_ ?_
    · intro x hx
      have hx' := List.mem_filter.mp hx
      by_cases hxr : x = r
      · exact Or.inl hxr
      · exact Or.inr (hmax x hx'.1 (by simpa using hx'.2) hxr)
    · exact Or.inl (List.mem_filter.mpr ⟨hmem, by simpa using hact⟩)
    · intro b hb
      exact Option.noConfusion hb
  refine ⟨?_, ?_, ?_⟩
  · simp [get_active_incident, hsel]
  · simp [runOps, applyOp, get_active_incident, hsel]
  · simp [runOps, applyOp, restore_active_incident, get_active_incident,
      hsel]

/-- Witness for `get_active_incident_restart_recovery` on the concrete
one-active-row store. -/
theorem get_active_incident_restart_recovery_witness :
    get_active_incident none dbActive1 = (some activeRow1, some 1) ∧
    runOps [TrackerOp.getActive] (none, dbActive1) = (some 1, dbActive1) ∧
    runOps [TrackerOp.restore] (none, dbActive1) = (some 1, dbActive1) := by
  have h := get_active_incident_restart_recovery dbActive1 activeRow1
    (by simp [dbActive1]) rfl
    (by
      intro x hx hxa hxr
      simp [dbActive1] at hx
      exact absurd hx hxr)
  simpa [activeRow1] using h

theorem find?_map_resolveFn (l : List Incident) (i : Nat) (t : Int)
    (d : String) (inc : Incident)
    (h : l.find? (fun r => r.id = i) = some inc) :
    (l.map (resolveFn i t d)).find? (fun r => r.id = i) =
      some { inc with end_time := some t, duration := some d,
                      status := "resolved" } := by
  induction l with
  | nil => simp at h
  | cons a l ih =>
    by_cases ha : a.id = i
    · rw [List.find?_cons_of_pos _ (by simpa using ha)] at h
      injection h with h
      subst h
      rw [List.map_cons, List.find?_cons_of_pos _ (by simp [resolveFn, ha])]
      rw [resolveFn, if_pos ha]
    · rw [List.find?_cons_of_neg _ (by simpa using ha)] at h
      rw [List.map_cons, List.find?_cons_of_neg _ (by simp [resolveFn, ha])]
      exact ih h

/-- C8 (amended): `end_incident` returns `None` (leaving everything
unchanged) when `current_incident_id` is unset; otherwise it resolves the
pointed-to row, setting `end_time` from the first clock reading and
`duration` from the second, fresh clock reading inside `format_duration` —
so `duration` equals `end_time - start_time` rendered as HH:MM:SS exactly
when the two readings coincide. -/
theorem end_incident_amended :
    (∀ (n1 n2 : Int) (db : IncidentsDb),
      end_incident n1 n2 none db = (none, none, db)) ∧
    (∀ (db : IncidentsDb) (i : Nat) (inc : Incident) (n1 n2 : Int),
      db.findRow i = some inc →
      end_incident n1 n2 (some i) db =
        (some { inc with
                  end_time := some n1,
                  duration := some (format_duration inc.start_time n2),
                  status := "resolved" },
         none, db.resolveRow i n1 (format_duration inc.start_time n2))) := by
  constructor
  · intro n1 n2 db
    rfl
  · intro db i inc n1 n2 hfind
    have hres : (db.resolveRow i n1
        (format_duration inc.start_time n2)).findRow i =
        some { inc with
                 end_time := some n1,
                 duration := some (format_duration inc.start_time n2),
                 status := "resolved" } :=
      find?_map_resolveFn db.rows i n1 _ inc hfind
    simp only [end_incident, hfind]
    rw [← hres]

/-- Witness for `end_incident_amended`: resolving the concrete store with
both clock readings equal to 10 yields duration `end_time - start_time`. -/
theorem end_incident_amended_witness :
    end_incident 7 8 none dbActive1 = (none, none, dbActive1) ∧
    end_incident 10 10 (some 1) dbActive1 =
      (some { activeRow1 with
                end_time := some 10,
                duration := some "00:00:10",
                status := "resolved" },
       none, dbActive1.resolveRow 1 10 "00:00:10") := by
  constructor
  · exact end_incident_amended.1 7 8 dbActive1
  · have h := end_incident_amended.2 dbActive1 1 activeRow1 10 10 (by rfl)
    simpa [activeRow1] using h

/-- C8 (counterexample): the source reads the clock once for `end_time` and
again inside `format_duration`, so when the second reading is one second
later the stored duration is `end_time - start_time + 1` second, not
`end_time - start_time` as claimed. -/
theorem end_incident_duration_cex :
    ((end_incident 10 11 (some 1) dbActive1).1.map Incident.duration) =
      some (some "00:00:11") ∧
    ((end_incident 10 11 (some 1) dbActive1).1.map Incident.end_time) =
      some (some 10) ∧
    ((end_incident 10 11 (some 1) dbActive1).1.map Incident.start_time) =
      some 0 ∧
    format_duration 0 10 = "00:00:10" ∧
    ("00:00:11" : String) ≠ "00:00:10" := by
  exact ⟨rfl, rfl, rfl, rfl, by decide⟩

theorem tracker_at_most_one_active_witness :
    start_incident 3 "d" "ru" none (some 7) dbActive1 =
      (some 7, some 7, dbActive1) ∧
    ((runOps [TrackerOp.start 0 "a" "ru" (some ["CRM"]),
              TrackerOp.endInc 4 4,
              TrackerOp.start 9 "b" "eu" none]
        (none, IncidentsDb.empty)).2).activeCount ≤ 1 :=
  ⟨tracker_at_most_one_active_amended.1 3 "d" "ru" none 7 dbActive1,
   tracker_at_most_one_active_amended.2
     [TrackerOp.start 0 "a" "ru" (some ["CRM"]),
      TrackerOp.endInc 4 4,
      TrackerOp.start 9 "b" "eu" none] (by decide)⟩

/-! ### CSV export lemmas -/

theorem digitCh_ne_comma (n : Nat) : digitCh n ≠ ',' := by
  unfold digitCh
  split <;> decide

theorem natDigitsAux_no_comma (fuel : Nat) :
    ∀ n : Nat, ',' ∉ natDigitsAux fuel n := by
  induction fuel with
  | zero => intro n; simp [natDigitsAux]
  | succ f ih =>
    intro n
    unfold natDigitsAux
    split
    · intro h
      rw [List.mem_singleton] at h
      exact digitCh_ne_comma n h.symm
    · intro h
      rcases List.mem_append.mp h with h | h
      · exact ih _ h
      · rw [List.mem_singleton] at h
        exact digitCh_ne_comma _ h.symm

theorem commaCount_append (s t : String) :
    commaCount (s ++ t) = commaCount s + commaCount t := by
  unfold commaCount
  rw [String.data_append, List.count_append]

theorem commaCount_natStr (n : Nat) : commaCount (natStr n) = 0 :=
  List.count_eq_zero.mpr (natDigitsAux_no_comma _ _)

theorem commaCount_cons_mk (c : Char) (l : List Char) (hc : ¬ c = ',')
    (hl : ',' ∉ l) : commaCount (String.mk (c :: l)) = 0 := by
  refine List.count_eq_zero.mpr ?_
  intro h
  rcases List.mem_cons.mp h with h | h
  · exact hc h.symm
  · exact hl h

theorem commaCount_pad2 (n : Nat) : commaCount (pad2 n) = 0 := by
  unfold pad2
  split
  · exact commaCount_cons_mk _ _ (by decide) (natDigitsAux_no_comma _ _)
  · exact commaCount_natStr n

theorem commaCount_intStr (i : Int) : commaCount (intStr i) = 0 := by
  unfold intStr
  split
  · exact commaCount_cons_mk _ _ (by decide) (natDigitsAux_no_comma _ _)
  · exact commaCount_natStr _

theorem commaCount_strfDate (t : Int) : commaCount (strfDate t) = 0 := by
  unfold strfDate
  rw [commaCount_append, commaCount_append, commaCount_append,
    commaCount_append, commaCount_intStr, commaCount_pad2, commaCount_pad2]
  rfl

theorem commaCount_strfTime (t : Int) : commaCount (strfTime t) = 0 := by
  unfold strfTime
  rw [commaCount_append, commaCount_append, commaCount_append,
    commaCount_append, commaCount_pad2, commaCount_pad2, commaCount_pad2]
  rfl

theorem replaceChar_not_mem (a b : Char) (s : String) (hab : ¬ b = a) :
    a ∉ (replaceChar a b s).data := by
  intro h
  obtain ⟨c, _, hfc⟩ := List.mem_map.mp h
  by_cases hca : c = a
  · rw [if_pos hca] at hfc
    exact hab hfc
  · rw [if_neg hca] at hfc
    exact hca hfc

theorem replaceChar_mem (a b x : Char) (s : String)
    (hx : x ∈ (replaceChar a b s).data) : x = b ∨ x ∈ s.data := by
  obtain ⟨c, hc, hfc⟩ := List.mem_map.mp hx
  by_cases hca : c = a
  · rw [if_pos hca] at hfc
    exact Or.inl hfc.symm
  · rw [if_neg hca] at hfc
    exact Or.inr (hfc ▸ hc)

theorem sanitizeDescription_no_comma (s : String) :
    commaCount (sanitizeDescription s) = 0 := by
  refine List.count_eq_zero.mpr ?_
  intro h
  rcases replaceChar_mem '\n' ' ' ',' _ h with h | h
  · exact absurd h (by decide)
  · exact replaceChar_not_mem ',' ';' s (by decide) h

theorem sanitizeDescription_no_newline (s : String) :
    '\n' ∉ (sanitizeDescription s).data :=
  replaceChar_not_mem '\n' ' ' _ (by decide)

theorem insertByStartDesc_perm (r : Incident) (l : List Incident) :
    (insertByStartDesc r l).Perm (r :: l) := by
  induction l with
  | nil => exact List.Perm.refl _
  | cons b bs ih =>
    unfold insertByStartDesc
    split
    · exact List.Perm.refl _
    · exact (List.Perm.cons b ih).trans (List.Perm.swap r b bs)

theorem sortByStartDesc_perm (l : List Incident) :
    (sortByStartDesc l).Perm l := by
  induction l with
  | nil => exact List.Perm.refl _
  | cons a t ih =>
    unfold sortByStartDesc at *
    rw [List.foldr_cons]
    exact (insertByStartDesc_perm a _).trans (List.Perm.cons a ih)

theorem insertByStartDesc_sorted (r : Incident) (l : List Incident)
    (h : l.Pairwise (fun a b => b.start_time ≤ a.start_time)) :
    (insertByStartDesc r l).Pairwise
      (fun a b => b.start_time ≤ a.start_time) := by
  induction l with
  | nil => simp [insertByStartDesc]
  | cons b bs ih =>
    rw [List.pairwise_cons] at h
    obtain ⟨hb, hbs⟩ := h
    unfold insertByStartDesc
    split
    · next hle =>
      rw [List.pairwise_cons]
      refine ⟨?_, List.pairwise_cons.mpr ⟨hb, hbs⟩⟩
      intro x hx
      rcases List.mem_cons.mp hx with he | ht
      · exact he ▸ hle
      · exact le_trans (hb x ht) hle
    · next hgt =>
      rw [List.pairwise_cons]
      refine ⟨?_, ih hbs⟩
      intro x hx
      rcases List.mem_cons.mp ((insertByStartDesc_perm r bs).subset hx)
        with he | ht
      · subst he
        exact le_of_lt (lt_of_not_le hgt)
      · exact hb x ht

theorem sortByStartDesc_sorted (l : List Incident) :
    (sortByStartDesc l).Pairwise (fun a b => b.start_time ≤ a.start_time) := by
  induction l with
  | nil => simp [sortByStartDesc]
  | cons a t ih =>
    unfold sortByStartDesc at *
    rw [List.foldr_cons]
    exact insertByStartDesc_sorted a _ ih

/-- C9 (amended): the export is one header line plus exactly one line per
incident, ordered by descending `start_time`; only the description is
sanitized (commas to semicolons, newlines to spaces) and quoted, and a data
line has the header's 7 fields plus one extra field per comma left in the
stored duration, region and components values — so multi-component
incidents (comma-joined components) produce more fields than the header. -/
theorem export_csv_amended (db : IncidentsDb) :
    (export_to_csv_format db).length = db.rows.length + 1 ∧
    (export_to_csv_format db).head? = some csvHeader ∧
    (sortByStartDesc db.rows).Perm db.rows ∧
    (sortByStartDesc db.rows).Pairwise
      (fun a b => b.start_time ≤ a.start_time) ∧
    fieldCount csvHeader = 7 ∧
    (∀ s, commaCount (sanitizeDescription s) = 0 ∧
      '\n' ∉ (sanitizeDescription s).data) ∧
    ∀ inc : Incident,
      fieldCount (csvLine inc) =
        7 + commaCount (optStr inc.duration) + commaCount inc.region +
          commaCount (optStr inc.components) := by
  refine ⟨?_, rfl, sortByStartDesc_perm db.rows, sortByStartDesc_sorted _,
    rfl, fun s => ⟨sanitizeDescription_no_comma s,
      sanitizeDescription_no_newline s⟩, ?_⟩
  · simp [export_to_csv_format, (sortByStartDesc_perm db.rows).length_eq]
  · intro inc
    unfold fieldCount csvLine
    have h1 : commaCount "," = 1 := rfl
    have h2 : commaCount ",\"" = 1 := rfl
    have h3 : commaCount "\"" = 0 := rfl
    have h4 : commaCount "В процессе" = 0 := rfl
    cases hend : inc.end_time with
    | none =>
      simp only [commaCount_append, commaCount_strfDate, commaCount_strfTime,
        sanitizeDescription_no_comma, h1, h2, h3, h4]
      omega
    | some e =>
      simp only [commaCount_append, commaCount_strfDate, commaCount_strfTime,
        sanitizeDescription_no_comma, h1, h2, h3, h4]
      omega

/-- C9 (counterexample): on a store holding one incident with two
comma-joined components, the single data row splits into 8 comma-separated
fields while the header has 7 — the claimed field-count equality fails. -/
theorem export_csv_fieldcount_cex :
    ((export_to_csv_format dbMultiComp).getLast?.map fieldCount) = some 8 ∧
    fieldCount csvHeader = 7 ∧
    (export_to_csv_format dbMultiComp).length = 2 := by
  exact ⟨rfl, rfl, rfl⟩

/-! ### Deduplicator lemmas -/

theorem find?_filter_keep {α : Type} (l : List α) (p q : α → Bool) (x : α)
    (hfind : l.find? p = some x) (hq : q x = true) :
    (l.filter q).find? p = some x := by
  induction l with
  | nil => simp at hfind
  | cons a t ih =>
    by_cases hpa : p a = true
    · rw [List.find?_cons_of_pos _ hpa] at hfind
      injection hfind with hfind
      subst hfind
      rw [List.filter_cons_of_pos hq, List.find?_cons_of_pos _ hpa]
    · rw [List.find?_cons_of_neg _ hpa] at hfind
      by_cases hqa : q a = true
      · rw [List.filter_cons_of_pos hqa, List.find?_cons_of_neg _ hpa]
        exact ih hfind
      · rw [List.filter_cons_of_neg (by simpa using hqa)]
        exact ih hfind

theorem find?_filter_none {α : Type} (l : List α) (p q : α → Bool)
    (hfind : l.find? p = none) : (l.filter q).find? p = none := by
  rw [List.find?_eq_none] at *
  intro x hx
  exact hfind x (List.mem_of_mem_filter hx)

theorem find?_setmap (h : List (String × Int × Nat)) (k : String)
    (v : Int × Nat) :
    (h.map (fun p => if p.1 = k then (k, v) else p)).find?
        (fun p => p.1 = k) = (h.find? (fun p => p.1 = k)).map
          (fun _ => (k, v)) := by
  induction h with
  | nil => rfl
  | cons a t ih =>
    by_cases hak : a.1 = k
    · rw [List.map_cons, if_pos hak, List.find?_cons_of_pos _ (by simp),
        List.find?_cons_of_pos _ (by simpa using hak)]
      rfl
    · rw [List.map_cons, if_neg hak,
        List.find?_cons_of_neg _ (by simpa using hak),
        List.find?_cons_of_neg _ (by simpa using hak)]
      exact ih

theorem find?_append_single (h : List (String × Int × Nat)) (k : String)
    (v : Int × Nat) (hn : h.find? (fun p => p.1 = k) = none) :
    (h ++ [(k, v)]).find? (fun p => p.1 = k) = some (k, v) := by
  induction h with
  | nil => simp
  | cons a t ih =>
    have hna : ¬ a.1 = k := by
      intro hh
      rw [List.find?_cons_of_pos _ (by simpa using hh)] at hn
      exact Option.noConfusion hn
    rw [List.find?_cons_of_neg _ (by simpa using hna)] at hn
    rw [List.cons_append, List.find?_cons_of_neg _ (by simpa using hna)]
    exact ih hn

theorem lookupHist_setHist (h : List (String × Int × Nat)) (k : String)
    (v : Int × Nat) : lookupHist (setHist h k v) k = some v := by
  unfold setHist
  by_cases hs : (h.find? (fun p => p.1 = k)).isSome
  · rw [if_pos hs]
    obtain ⟨e, he⟩ := Option.isSome_iff_exists.mp hs
    unfold lookupHist
    rw [find?_setmap, he]
    rfl
  · rw [if_neg hs]
    have hn : h.find? (fun p => p.1 = k) = none :=
      Option.not_isSome_iff_eq_none.mp hs
    unfold lookupHist
    rw [find?_append_single h k v hn]

theorem cleanup_window (tc : Int) (st : DedupState) :
    (cleanup_old_alerts tc st).dedup_window = st.dedup_window := by
  unfold cleanup_old_alerts
  split <;> rfl

theorem lookupHist_cleanup (st : DedupState) (tc : Int) (k : String)
    (last : Int) (count : Nat)
    (hl : lookupHist st.alert_history k = some (last, count))
    (hkeep : ¬ last < tc - st.dedup_window * 2) :
    lookupHist (cleanup_old_alerts tc st).alert_history k =
      some (last, count) := by
  unfold cleanup_old_alerts
  split
  · exact hl
  · unfold lookupHist at hl ⊢
    cases hf : st.alert_history.find? (fun p => p.1 = k) with
    | none => rw [hf] at hl; exact Option.noConfusion hl
    | some e =>
      rw [hf] at hl
      injection hl with hl
      have h21 : e.2.1 = last := by rw [hl]
      have hkeepe : (fun p : String × Int × Nat =>
          decide (¬ p.2.1 < tc - st.dedup_window * 2)) e = true := by
        simp only [decide_eq_true_eq]
        rw [h21]
        exact hkeep
      rw [find?_filter_keep _ _ _ e hf hkeepe]
      simp [hl]

theorem lookupHist_cleanup_none (st : DedupState) (tc : Int) (k : String)
    (hl : lookupHist st.alert_history k = none) :
    lookupHist (cleanup_old_alerts tc st).alert_history k = none := by
  unfold cleanup_old_alerts
  split
  · exact hl
  · unfold lookupHist at hl ⊢
    cases hf : st.alert_history.find? (fun p => p.1 = k) with
    | none => rw [find?_filter_none _ _ _ hf]
    | some e => rw [hf] at hl; exact Option.noConfusion hl

theorem mem_unique_key (l : List (String × Int × Nat)) (k : String)
    (hnodup : l.Pairwise (fun a b => a.1 ≠ b.1))
    (x y : String × Int × Nat) (hx : x ∈ l) (hy : y ∈ l)
    (hxk : x.1 = k) (hyk : y.1 = k) : x = y := by
  induction l with
  | nil => exact absurd hx (List.not_mem_nil x)
  | cons a t ih =>
    rw [List.pairwise_cons] at hnodup
    rcases List.mem_cons.mp hx with hxa | hxt <;>
      rcases List.mem_cons.mp hy with hya | hyt
    · rw [hxa, hya]
    · subst hxa
      exact absurd (hxk.trans hyk.symm) (hnodup.1 y hyt)
    · subst hya
      exact absurd (hyk.trans hxk.symm) (hnodup.1 x hxt)
    · exact ih hnodup.2 hxt hyt

theorem find?_filter_of_unique (l : List (String × Int × Nat))
    (k : String) (q : String × Int × Nat → Bool) (e : String × Int × Nat)
    (hfind : l.find? (fun p => p.1 = k) = some e)
    (hnodup : l.Pairwise (fun a b => a.1 ≠ b.1)) (hq : q e = false) :
    (l.filter q).find? (fun p => p.1 = k) = none := by
  rw [List.find?_eq_none]
  intro x hx
  have hxl := List.mem_of_mem_filter hx
  have hxq := List.of_mem_filter hx
  simp only [decide_eq_true_eq]
  intro hxk
  have hek : e.1 = k := by simpa using List.find?_some hfind
  have hel : e ∈ l := List.mem_of_find?_eq_some hfind
  have hxe : x = e := mem_unique_key l k hnodup x e hxl hel hxk hek
  rw [hxe, hq] at hxq
  exact Bool.false_ne_true hxq

theorem lookupHist_cleanup_cases (st : DedupState) (tc : Int) (k : String)
    (last : Int) (count : Nat)
    (hl : lookupHist st.alert_history k = some (last, count))
    (hnodup : st.alert_history.Pairwise (fun a b => a.1 ≠ b.1)) :
    lookupHist (cleanup_old_alerts tc st).alert_history k =
        some (last, count) ∨
    lookupHist (cleanup_old_alerts tc st).alert_history k = none := by
  unfold cleanup_old_alerts
  split
  · exact Or.inl hl
  · unfold lookupHist at hl ⊢
    cases hf : st.alert_history.find? (fun p => p.1 = k) with
    | none => rw [hf] at hl; exact Option.noConfusion hl
    | some e =>
      rw [hf] at hl
      injection hl with hl
      by_cases hq : (fun p : String × Int × Nat =>
          decide (¬ p.2.1 < tc - st.dedup_window * 2)) e = true
      · refine Or.inl ?_
        rw [find?_filter_keep _ _ _ e hf hq]
        simp [hl]
      · refine Or.inr ?_
        rw [find?_filter_of_unique _ k _ e hf hnodup
          (by simpa using hq)]

/-- C4: recoveries (`status='up'`) are always allowed and leave the state
untouched; a `down` alert whose fingerprint was last sent within the dedup
window is refused, incrementing the repeat count while keeping the old
timestamp; otherwise — no record for the fingerprint, or a record whose
last-sent time is outside the window — `(now, 1)` is stored and the alert
is allowed; in particular two identical `down` alerts inside the window
yield true then false, while `up` alerts always yield true.  The
monotonicity hypotheses order the successive clock readings, and the
pairwise-distinct-keys hypothesis in the expired-record part is the
Python-dict invariant of `_alert_history`. -/
theorem should_send_alert_spec :
    (∀ (tc tn : Int) (comps : List String) (region : String)
        (st : DedupState),
      should_send_alert tc tn comps "up" region st = (true, st)) ∧
    (∀ (tc tn last : Int) (count : Nat) (comps : List String)
        (region : String) (st : DedupState),
      0 ≤ st.dedup_window → tc ≤ tn →
      lookupHist st.alert_history
        (generate_alert_hash region "down" comps) = some (last, count) →
      tn - last < st.dedup_window →
      (should_send_alert tc tn comps "down" region st).1 = false ∧
      lookupHist
        (should_send_alert tc tn comps "down" region st).2.alert_history
        (generate_alert_hash region "down" comps) = some (last, count + 1)) ∧
    (∀ (tc tn : Int) (comps : List String) (region : String)
        (st : DedupState),
      lookupHist st.alert_history
        (generate_alert_hash region "down" comps) = none →
      (should_send_alert tc tn comps "down" region st).1 = true ∧
      lookupHist
        (should_send_alert tc tn comps "down" region st).2.alert_history
        (generate_alert_hash region "down" comps) = some (tn, 1)) ∧
    (∀ (tc tn last : Int) (count : Nat) (comps : List String)
        (region : String) (st : DedupState),
      st.alert_history.Pairwise (fun a b => a.1 ≠ b.1) →
      lookupHist st.alert_history
        (generate_alert_hash region "down" comps) = some (last, count) →
      ¬ tn - last < st.dedup_window →
      (should_send_alert tc tn comps "down" region st).1 = true ∧
      lookupHist
        (should_send_alert tc tn comps "down" region st).2.alert_history
        (generate_alert_hash region "down" comps) = some (tn, 1)) ∧
    (∀ (tc1 tn1 tc2 tn2 : Int) (comps : List String) (region : String)
        (st : DedupState),
      0 ≤ st.dedup_window → tc2 ≤ tn2 → tn2 - tn1 < st.dedup_window →
      lookupHist st.alert_history
        (generate_alert_hash region "down" comps) = none →
      (should_send_alert tc1 tn1 comps "down" region st).1 = true ∧
      (should_send_alert tc2 tn2 comps "down" region
        (should_send_alert tc1 tn1 comps "down" region st).2).1 = false) := by
  have hwindow : ∀ tc tn comps region st,
      (should_send_alert tc tn comps "down" region st).2.dedup_window =
        st.dedup_window := by
    intro tc tn comps region st
    unfold should_send_alert
    rw [if_neg (by decide)]
    simp only []
    split
    · split <;> simp [cleanup_window]
    · simp [cleanup_window]
  have hdup : ∀ (tc tn last : Int) (count : Nat) (comps : List String)
      (region : String) (st : DedupState),
      0 ≤ st.dedup_window → tc ≤ tn →
      lookupHist st.alert_history
        (generate_alert_hash region "down" comps) = some (last, count) →
      tn - last < st.dedup_window →
      (should_send_alert tc tn comps "down" region st).1 = false ∧
      lookupHist
        (should_send_alert tc tn comps "down" region st).2.alert_history
        (generate_alert_hash region "down" comps) = some (last, count + 1) := by
    intro tc tn last count comps region st hw hord hlook hwin
    have hkeep : ¬ last < tc - st.dedup_window * 2 := by omega
    have hlook1 := lookupHist_cleanup st tc _ last count hlook hkeep
    unfold should_send_alert
    rw [if_neg (by decide)]
    simp only [hlook1, cleanup_window, if_pos hwin]
    exact ⟨by trivial, lookupHist_setHist _ _ _⟩
  have hfresh : ∀ (tc tn : Int) (comps : List String) (region : String)
      (st : DedupState),
      lookupHist st.alert_history
        (generate_alert_hash region "down" comps) = none →
      (should_send_alert tc tn comps "down" region st).1 = true ∧
      lookupHist
        (should_send_alert tc tn comps "down" region st).2.alert_history
        (generate_alert_hash region "down" comps) = some (tn, 1) := by
    intro tc tn comps region st hlook
    have hlook1 := lookupHist_cleanup_none st tc _ hlook
    unfold should_send_alert
    rw [if_neg (by decide)]
    simp only [hlook1]
    exact ⟨by trivial, lookupHist_setHist _ _ _⟩
  have hstale : ∀ (tc tn last : Int) (count : Nat) (comps : List String)
      (region : String) (st : DedupState),
      st.alert_history.Pairwise (fun a b => a.1 ≠ b.1) →
      lookupHist st.alert_history
        (generate_alert_hash region "down" comps) = some (last, count) →
      ¬ tn - last < st.dedup_window →
      (should_send_alert tc tn comps "down" region st).1 = true ∧
      lookupHist
        (should_send_alert tc tn comps "down" region st).2.alert_history
        (generate_alert_hash region "down" comps) = some (tn, 1) := by
    intro tc tn last count comps region st hnodup hlook hout
    rcases lookupHist_cleanup_cases st tc _ last count hlook hnodup
      with hc | hc
    · unfold should_send_alert
      rw [if_neg (by decide)]
      simp only [hc, cleanup_window]
      rw [if_neg hout]
      exact ⟨by trivial, lookupHist_setHist _ _ _⟩
    · unfold should_send_alert
      rw [if_neg (by decide)]
      simp only [hc]
      exact ⟨by trivial, lookupHist_setHist _ _ _⟩
  refine ⟨?_, hdup, hfresh, hstale, ?_⟩
  · intro tc tn comps region st
    unfold should_send_alert
    rw [if_pos rfl]
  · intro tc1 tn1 tc2 tn2 comps region st hw hord hwin hlook
    obtain ⟨h1, h2⟩ := hfresh tc1 tn1 comps region st hlook
    have hw2 : 0 ≤ (should_send_alert tc1 tn1 comps "down" region
        st).2.dedup_window := by
      rw [hwindow]; exact hw
    have hwin2 : tn2 - tn1 <
        (should_send_alert tc1 tn1 comps "down" region st).2.dedup_window := by
      rw [hwindow]; exact hwin
    exact ⟨h1, (hdup tc2 tn2 tn1 1 comps region _ hw2 hord h2 hwin2).1⟩

/-- Witness for `should_send_alert_spec`: a fresh deduplicator with a 300s
window allows the first `down` alert for (ru, [CRM]) at t=5, refuses the
identical alert at t=15 while bumping the count, allows it again at t=500
once the record has expired (re-stamping the record to (500, 1)), and
allows both of two `up` calls. -/
theorem should_send_alert_spec_witness :
    should_send_alert 1 2 ["CRM"] "up" "ru" (dedupInit 0 300 30) =
      (true, dedupInit 0 300 30) ∧
    (should_send_alert 5 5 ["CRM"] "down" "ru" (dedupInit 0 300 30)).1 =
      true ∧
    (should_send_alert 15 15 ["CRM"] "down" "ru"
      (should_send_alert 5 5 ["CRM"] "down" "ru"
        (dedupInit 0 300 30)).2).1 = false ∧
    lookupHist (should_send_alert 5 5 ["CRM"] "down" "ru"
      (dedupInit 0 300 30)).2.alert_history
      (generate_alert_hash "ru" "down" ["CRM"]) = some (5, 1) ∧
    (should_send_alert 500 500 ["CRM"] "down" "ru" dedupSeeded).1 =
      true ∧
    lookupHist (should_send_alert 500 500 ["CRM"] "down" "ru"
      dedupSeeded).2.alert_history
      (generate_alert_hash "ru" "down" ["CRM"]) = some (500, 1) := by
  refine ⟨should_send_alert_spec.1 1 2 ["CRM"] "ru" (dedupInit 0 300 30),
    (should_send_alert_spec.2.2.2.2 5 5 15 15 ["CRM"] "ru"
      (dedupInit 0 300 30) (by decide) (by decide) (by decide)
      (by decide)).1,
    (should_send_alert_spec.2.2.2.2 5 5 15 15 ["CRM"] "ru"
      (dedupInit 0 300 30) (by decide) (by decide) (by decide)
      (by decide)).2,
    (should_send_alert_spec.2.2.1 5 5 ["CRM"] "ru" (dedupInit 0 300 30)
      (by decide)).2,
    (should_send_alert_spec.2.2.2.1 500 500 95 1 ["CRM"] "ru"
      dedupSeeded (List.pairwise_singleton _ _) (by decide)
      (by decide)).1,
    (should_send_alert_spec.2.2.2.1 500 500 95 1 ["CRM"] "ru"
      dedupSeeded (List.pairwise_singleton _ _) (by decide)
      (by decide)).2⟩

/-- C10: for every environment, the `BotConfig` attribute set lacks
`DEDUP_WINDOW` and `GROUP_INTERVAL`, so `StatusMonitor.__init__` (which
reads `config.DEDUP_WINDOW` first) always raises `AttributeError` — the
monitor cannot be instantiated from any `BotConfig`. -/
theorem statusMonitor_init_attribute_error (env : List (String × String)) :
    statusMonitorInitDedupArgs (botConfig env) =
      Except.error "DEDUP_WINDOW" ∧
    "DEDUP_WINDOW" ∉ (botConfig env).map Prod.fst ∧
    "GROUP_INTERVAL" ∉ (botConfig env).map Prod.fst := by
  refine ⟨rfl, ?_, ?_⟩ <;> simp [botConfig]

/-! ### Error-path theorems -/

theorem loopIter_error (cfg : MonitorConfig) (fc : Bool) (cur : Snapshot)
    (st : Mst) (herr : cur.error = true) :
    loopIter cfg fc cur st =
      (fc, { st with consecutive_errors := st.consecutive_errors + 1 },
        ((if fc then [] else [Ev.sleep cfg.CHECK_INTERVAL]) ++
          [Ev.fetch, Ev.recordCheck false]) ++
          ((if 5 ≤ st.consecutive_errors + 1 ∧ intTruthy cfg.ADMIN_CHAT_ID
            then [Ev.adminWarn] else []) ++
          [Ev.sleep cfg.CHECK_INTERVAL])) := by
  unfold loopIter
  rw [herr]
  simp

theorem monitorLoop_error_warns (cfg : MonitorConfig)
    (hadmin : intTruthy cfg.ADMIN_CHAT_ID = true) :
    ∀ (n : Nat) (fc : Bool) (st : Mst),
      countWarns (monitorLoop cfg (List.replicate n errSnap) fc st).2 =
        (st.consecutive_errors + n) - max st.consecutive_errors 4 := by
  intro n
  induction n with
  | zero =>
    intro fc st
    simp [monitorLoop, countWarns]
  | succ m ih =>
    intro fc st
    rw [List.replicate_succ]
    have hstep := loopIter_error cfg fc errSnap st rfl
    simp only [monitorLoop, hstep, countWarns, List.count_append]
    have ihm := ih fc
      { st with consecutive_errors := st.consecutive_errors + 1 }
    simp only [countWarns] at ihm
    rw [ihm]
    by_cases hc : 4 ≤ st.consecutive_errors <;>
      cases fc <;> simp [hc, hadmin] <;> omega

/-- C7 (amended): an errored poll increments `consecutive_errors` and
changes nothing else — no state transition is inferred (previous snapshot,
pointer and store are untouched) and the normal interval is slept once in
the error branch; but the administrative warning is re-sent on every
errored poll whose incremented count is at least the threshold 5 (with an
admin chat configured), not once per crossing: n consecutive errors from a
fresh counter emit n - 4 warnings. -/
theorem error_polls_warn_every_poll :
    (∀ (cfg : MonitorConfig) (fc : Bool) (cur : Snapshot) (st : Mst),
      cur.error = true →
      loopIter cfg fc cur st =
        (fc, { st with consecutive_errors := st.consecutive_errors + 1 },
          ((if fc then [] else [Ev.sleep cfg.CHECK_INTERVAL]) ++
            [Ev.fetch, Ev.recordCheck false]) ++
            ((if 5 ≤ st.consecutive_errors + 1 ∧ intTruthy cfg.ADMIN_CHAT_ID
              then [Ev.adminWarn] else []) ++
            [Ev.sleep cfg.CHECK_INTERVAL]))) ∧
    (∀ cfg : MonitorConfig, intTruthy cfg.ADMIN_CHAT_ID = true →
      ∀ (n : Nat) (fc : Bool) (st : Mst),
        countWarns (monitorLoop cfg (List.replicate n errSnap) fc st).2 =
          (st.consecutive_errors + n) - max st.consecutive_errors 4) :=
  ⟨loopIter_error, monitorLoop_error_warns⟩

/-- Witness for `error_polls_warn_every_poll`: one errored poll leaves the
state unchanged but for the counter, and six errors from a fresh counter
warn twice. -/
theorem error_polls_warn_every_poll_witness :
    loopIter cfgBase true errSnap freshMst =
      (true, { freshMst with consecutive_errors := 1 },
        [Ev.fetch, Ev.recordCheck false, Ev.sleep 300]) ∧
    countWarns (monitorLoop cfgBase (List.replicate 6 errSnap) true
      freshMst).2 = 2 := by
  constructor
  · have h := error_polls_warn_every_poll.1 cfgBase true errSnap freshMst
      rfl
    simpa using h
  · have h := error_polls_warn_every_poll.2 cfgBase rfl 6 true freshMst
    simpa [freshMst, initMst] using h

/-- C7 (counterexample): six consecutive errored polls with an admin chat
configured produce two administrative warnings (on the fifth and sixth
polls), not one per threshold crossing. -/
theorem error_warning_repeats_cex :
    countWarns (monitorLoop cfgBase (List.replicate 6 errSnap) true
      freshMst).2 = 2 ∧ (2 : Nat) ≠ 1 := by
  exact ⟨rfl, by decide⟩

/-! ### Loop pacing theorems: no handler emits sleeps or fetches -/

theorem sendToAllGroups_noSF (prevIds : List (Int × Nat)) (isNew : Bool) :
    ∀ (groups : List Int) (st : Mst) (e : Ev),
      e ∈ (sendToAllGroups prevIds isNew st groups).2.2 →
      isSleepOrFetch e = false := by
  intro groups
  induction groups with
  | nil =>
    intro st e he
    simp [sendToAllGroups] at he
  | cons g gs ih =>
    intro st e he
    unfold sendToAllGroups at he
    split at he <;> simp at he <;>
      rcases he with he | he
    · subst he; rfl
    · exact ih _ e he
    · subst he; rfl
    · exact ih _ e he

theorem handleStatusChange_noSF (cfg : MonitorConfig) (cur : Snapshot)
    (st : Mst) (e : Ev) (he : e ∈ (handleStatusChange cfg cur st).2) :
    isSleepOrFetch e = false := by
  unfold handleStatusChange at he
  split at he
  · simp at he
  · split at he
    · split at he
      · simp only [] at he
        split at he
        · simp at he
        · simp at he
          rcases he with he | he
          · exact sendToAllGroups_noSF _ _ _ _ e he
          · subst he; rfl
      · simp at he
    · split at he
      · simp only [] at he
        split at he
        · simp at he
          rcases he with he | he
          · exact sendToAllGroups_noSF _ _ _ _ e he
          · subst he; rfl
        · simp at he
      · split at he
        · split at he
          · simp at he
            exact sendToAllGroups_noSF _ _ _ _ e he
          · simp at he
        · simp at he

theorem handleFirstCheckWithIssues_noSF (cfg : MonitorConfig)
    (cur : Snapshot) (active : Option Incident) (st : Mst) (e : Ev)
    (he : e ∈ (handleFirstCheckWithIssues cfg cur active st).2) :
    isSleepOrFetch e = false := by
  unfold handleFirstCheckWithIssues at he
  simp only [] at he
  split at he
  · simp at he
  · split at he
    · simp at he
      rcases he with he | he
      · exact sendToAllGroups_noSF _ _ _ _ e he
      · subst he; rfl
    · simp at he
      exact sendToAllGroups_noSF _ _ _ _ e he

theorem handleFirstCheckRecovery_noSF (cfg : MonitorConfig) (st : Mst)
    (e : Ev) (he : e ∈ (handleFirstCheckRecovery cfg st).2) :
    isSleepOrFetch e = false := by
  unfold handleFirstCheckRecovery at he
  simp only [] at he
  split at he
  · simp at he
  · simp at he
    rcases he with he | he
    · exact sendToAllGroups_noSF _ _ _ _ e he
    · subst he; rfl

theorem sendInfoAllClear_noSF (cfg : MonitorConfig) (st : Mst) (e : Ev)
    (he : e ∈ (sendInfoAllClear cfg st).2) : isSleepOrFetch e = false := by
  unfold sendInfoAllClear at he
  split at he
  · simp at he
    exact sendToAllGroups_noSF _ _ _ _ e he
  · simp at he

theorem handleFirstCheckRecentIncident_noSF (cfg : MonitorConfig)
    (st : Mst) (e : Ev)
    (he : e ∈ (handleFirstCheckRecentIncident cfg st).2) :
    isSleepOrFetch e = false := by
  unfold handleFirstCheckRecentIncident at he
  split at he
  · split at he
    · split at he
      · simp only [] at he
        split at he
        · simp at he
          rcases he with he | he
          · exact sendToAllGroups_noSF _ _ _ _ e he
          · subst he; rfl
        · simp at he
      · simp at he
    · exact sendInfoAllClear_noSF _ _ e he
  · exact sendInfoAllClear_noSF _ _ e he

theorem successBody_noSF (cfg : MonitorConfig) (fc : Bool) (cur : Snapshot)
    (st : Mst) (e : Ev) (he : e ∈ (successBody cfg fc cur st).2) :
    isSleepOrFetch e = false := by
  unfold successBody at he
  split at he
  · simp only [] at he
    split at he
    · exact handleFirstCheckWithIssues_noSF _ _ _ _ e (by simpa using he)
    · split at he
      · exact handleFirstCheckRecovery_noSF _ _ e (by simpa using he)
      · split at he
        · exact handleFirstCheckRecentIncident_noSF _ _ e
            (by simpa using he)
        · simp at he
  · simp only [] at he
    exact handleStatusChange_noSF _ _ _ e (by simpa using he)

theorem successBody_filterSF (cfg : MonitorConfig) (fc : Bool)
    (cur : Snapshot) (st : Mst) :
    (successBody cfg fc cur st).2.filter isSleepOrFetch = [] := by
  rw [List.filter_eq_nil_iff]
  intro e he
  rw [successBody_noSF cfg fc cur st e he]
  exact Bool.false_ne_true

theorem loopIter_ok_filter (cfg : MonitorConfig) (fc : Bool)
    (cur : Snapshot) (st : Mst) (hok : cur.error = false) :
    (loopIter cfg fc cur st).1 = false ∧
    (loopIter cfg fc cur st).2.2.filter isSleepOrFetch =
      (if fc then ([] : List Ev) else [Ev.sleep cfg.CHECK_INTERVAL]) ++
        [Ev.fetch, Ev.sleep cfg.CHECK_INTERVAL] := by
  unfold loopIter
  rw [hok]
  constructor
  · rfl
  · show (((if fc = true then [] else [Ev.sleep cfg.CHECK_INTERVAL]) ++
        [Ev.fetch, Ev.recordCheck (!false)]) ++
        (successBody cfg fc cur _).2 ++
        [Ev.sleep cfg.CHECK_INTERVAL]).filter isSleepOrFetch = _
    rw [List.filter_append, List.filter_append, List.filter_append,
      successBody_filterSF]
    cases fc <;> simp [isSleepOrFetch]

theorem monitorLoop_steady (cfg : MonitorConfig) :
    ∀ (snaps : List Snapshot) (st : Mst),
      (∀ s ∈ snaps, s.error = false) →
      (monitorLoop cfg snaps false st).2.filter isSleepOrFetch =
        steadyPattern cfg.CHECK_INTERVAL snaps.length := by
  intro snaps
  induction snaps with
  | nil => intro st _; rfl
  | cons s rest ih =>
    intro st hok
    have hs := hok s (List.mem_cons_self _ _)
    have hiter := loopIter_ok_filter cfg false s st hs
    unfold monitorLoop
    rw [List.filter_append, hiter.1, hiter.2,
      ih _ (fun x hx => hok x (List.mem_cons_of_mem _ hx))]
    simp [steadyPattern]

/-- C6 (amended): the first iteration fetches immediately — no sleep
precedes the first fetch — but in an error-free run every pair of
consecutive fetches is separated by exactly TWO interval-length sleeps
(the trailing sleep of one iteration plus the leading sleep of the next),
not one: the pacing trace is `fetch, sleep, (sleep, fetch, sleep)*`. -/
theorem monitor_loop_pacing (cfg : MonitorConfig) (s : Snapshot)
    (rest : List Snapshot) (st : Mst) (hs : s.error = false)
    (hrest : ∀ x ∈ rest, x.error = false) :
    (monitorLoop cfg (s :: rest) true st).2.filter isSleepOrFetch =
      Ev.fetch :: Ev.sleep cfg.CHECK_INTERVAL ::
        steadyPattern cfg.CHECK_INTERVAL rest.length := by
  have hiter := loopIter_ok_filter cfg true s st hs
  unfold monitorLoop
  rw [List.filter_append, hiter.1, hiter.2, monitorLoop_steady cfg rest _
    hrest]
  simp

/-- Witness for `monitor_loop_pacing` on a two-snapshot healthy run. -/
theorem monitor_loop_pacing_witness :
    (monitorLoop cfgBase [okSnap, okSnap] true freshMst).2.filter
        isSleepOrFetch =
      Ev.fetch :: Ev.sleep 300 :: steadyPattern 300 1 := by
  have h := monitor_loop_pacing cfgBase okSnap [okSnap] freshMst rfl
    (by intro x hx; simp at hx; subst hx; rfl)
  simpa [cfgBase] using h

/-- C6 (counterexample): on a two-snapshot healthy run the number of
interval sleeps between the two fetches is 2, not 1. -/
theorem monitor_loop_double_sleep_cex :
    sleepGaps ((monitorLoop cfgBase [okSnap, okSnap] true freshMst).2)
      none = [2] ∧ (2 : Nat) ≠ 1 := by
  exact ⟨rfl, by decide⟩

/-! ### Status-change theorems (state preservation lemmas) -/

theorem tick_db (st : Mst) : (st.tick).2.db = st.db := by
  unfold Mst.tick
  split <;> rfl

theorem tick_ptr (st : Mst) : (st.tick).2.ptr = st.ptr := by
  unfold Mst.tick
  split <;> rfl

theorem tick_prev (st : Mst) :
    (st.tick).2.previous_status = st.previous_status := by
  unfold Mst.tick
  split <;> rfl

theorem tick_ids (st : Mst) :
    (st.tick).2.alert_message_ids = st.alert_message_ids := by
  unfold Mst.tick
  split <;> rfl

theorem tick_issue (st : Mst) :
    (st.tick).2.issue_start_time = st.issue_start_time := by
  unfold Mst.tick
  split <;> rfl

theorem sendToAllGroups_state (prevIds : List (Int × Nat)) (isNew : Bool) :
    ∀ (groups : List Int) (st : Mst),
      (sendToAllGroups prevIds isNew st groups).2.1.db = st.db ∧
      (sendToAllGroups prevIds isNew st groups).2.1.ptr = st.ptr := by
  intro groups
  induction groups with
  | nil => intro st; exact ⟨rfl, rfl⟩
  | cons g gs ih =>
    intro st
    unfold sendToAllGroups
    split
    · exact ⟨(ih _).1, (ih _).2⟩
    · exact ⟨(ih _).1, (ih _).2⟩

theorem shouldSendM_state (comps : List String) (status region : String)
    (st : Mst) :
    (shouldSendM comps status region st).2.db = st.db ∧
    (shouldSendM comps status region st).2.ptr = st.ptr ∧
    (shouldSendM comps status region st).2.previous_status =
      st.previous_status := by
  unfold shouldSendM
  split
  · exact ⟨rfl, rfl, rfl⟩
  · refine ⟨?_, ?_, ?_⟩ <;> simp [tick_db, tick_ptr, tick_prev]

theorem startIncidentM_none_spec (d rg : String)
    (c : Option (List String)) (st : Mst) (hptr : st.ptr = none) :
    (startIncidentM d rg c st).2.db.rows =
      st.db.rows ++
        [{ id := st.db.nextId, start_time := (st.tick).1,
           end_time := none, duration := none, description := d,
           region := rg, status := "active",
           components := componentsStr c }] ∧
    (startIncidentM d rg c st).2.db.nextId = st.db.nextId + 1 ∧
    (startIncidentM d rg c st).2.ptr = some st.db.nextId := by
  unfold startIncidentM
  rw [hptr]
  simp only [start_incident]
  exact ⟨by simp [tick_db], by simp [tick_db], by simp [tick_db]⟩

theorem endIncidentM_resolves (st : Mst) (i : Nat) (inc : Incident)
    (hptr : st.ptr = some i) (hfind : st.db.findRow i = some inc) :
    (endIncidentM st).2.ptr = none ∧
    ((endIncidentM st).2.db.findRow i).map Incident.status =
      some "resolved" ∧
    (endIncidentM st).2.previous_status = st.previous_status := by
  have hfind2 : ((st.tick).2.tick).2.db.findRow i = some inc := by
    rw [tick_db, tick_db]
    exact hfind
  have hend := end_incident_amended.2 ((st.tick).2.tick).2.db i inc
    (st.tick).1 ((st.tick).2.tick).1 hfind2
  have hres : ((((st.tick).2.tick).2.db.resolveRow i (st.tick).1
      (format_duration inc.start_time ((st.tick).2.tick).1)).findRow i) =
      some { inc with
               end_time := some (st.tick).1,
               duration := some (format_duration inc.start_time
                 ((st.tick).2.tick).1),
               status := "resolved" } :=
    find?_map_resolveFn _ i _ _ inc hfind2
  unfold endIncidentM
  rw [hptr]
  simp only []
  rw [hfind]
  simp only [hend]
  refine ⟨trivial, ?_, by simp [tick_prev]⟩
  rw [hres]
  rfl

theorem handleFirstCheckRecentIncident_db (cfg : MonitorConfig)
    (st : Mst) : (handleFirstCheckRecentIncident cfg st).1.db = st.db := by
  unfold handleFirstCheckRecentIncident sendInfoAllClear
  split
  · split
    · split
      · simp only []
        split
        · exact ((sendToAllGroups_state _ _ _ _).1).trans (tick_db st)
        · exact tick_db st
      · rfl
    · split
      · exact (sendToAllGroups_state _ _ _ _).1
      · rfl
  · split
    · exact (sendToAllGroups_state _ _ _ _).1
    · rfl

theorem handleStatusChange_recovery_branch (cfg : MonitorConfig)
    (cur : Snapshot) (st : Mst) (prev : Snapshot)
    (hprev : st.previous_status = some prev)
    (hpi : prev.has_issues = true) (hcur : cur.has_issues = false) :
    handleStatusChange cfg cur st =
      (let o :=
        if cfg.ALERT_ON_RECOVERY then
          let st1 := (endIncidentM st).2
          let st2 :=
            match st1.issue_start_time with
            | some _ => (st1.tick).2
            | none => st1
          let r := sendToAllGroups st2.alert_message_ids false st2
            cfg.alert_groups
          ({ r.2.1 with alert_message_ids := r.1 },
            r.2.2 ++ [Ev.recordRecovery])
        else (st, [])
      ({ o.1 with alert_message_ids := [], issue_start_time := none },
        o.2)) := by
  unfold handleStatusChange
  rw [hprev]
  simp only [hpi, hcur, Bool.not_true, Bool.not_false, Bool.false_and,
    Bool.and_false, Bool.true_and, Bool.and_true]
  rfl

/-- C2 (amended): on a degraded→healthy transition the incident is
resolved, the alert-message references edited and `recordRecovery`
emitted only when `ALERT_ON_RECOVERY` is true — with the flag false the
store is untouched (the incident stays active) and nothing is sent,
though the message references and `issue_start_time` are still cleared;
the first-check healthy path resolves the adopted active incident under
the same flag, and with the flag false a healthy check never mutates the
store. -/
theorem recovery_resolution_gated_by_flag :
    (∀ (cfg : MonitorConfig) (cur : Snapshot) (st : Mst) (prev : Snapshot)
        (i : Nat) (inc : Incident),
      st.previous_status = some prev → prev.has_issues = true →
      cur.has_issues = false → cfg.ALERT_ON_RECOVERY = true →
      st.ptr = some i → st.db.findRow i = some inc →
      (handleStatusChange cfg cur st).1.ptr = none ∧
      ((handleStatusChange cfg cur st).1.db.findRow i).map
        Incident.status = some "resolved" ∧
      (handleStatusChange cfg cur st).1.alert_message_ids = [] ∧
      (handleStatusChange cfg cur st).1.issue_start_time = none ∧
      Ev.recordRecovery ∈ (handleStatusChange cfg cur st).2) ∧
    (∀ (cfg : MonitorConfig) (cur : Snapshot) (st : Mst) (prev : Snapshot),
      st.previous_status = some prev → prev.has_issues = true →
      cur.has_issues = false → cfg.ALERT_ON_RECOVERY = false →
      handleStatusChange cfg cur st =
        ({ st with alert_message_ids := [], issue_start_time := none },
          ([] : List Ev))) ∧
    (∀ (cfg : MonitorConfig) (st : Mst) (i : Nat) (inc : Incident),
      st.ptr = some i → st.db.findRow i = some inc →
      (handleFirstCheckRecovery cfg st).1.ptr = none ∧
      ((handleFirstCheckRecovery cfg st).1.db.findRow i).map
        Incident.status = some "resolved" ∧
      Ev.recordRecovery ∈ (handleFirstCheckRecovery cfg st).2) ∧
    (∀ (cfg : MonitorConfig) (cur : Snapshot) (st : Mst),
      cur.error = false → cur.has_issues = false →
      cfg.ALERT_ON_RECOVERY = false →
      (loopIter cfg true cur st).2.1.db = st.db) := by
  refine ⟨?_, ?_, ?_, ?_⟩
  · intro cfg cur st prev i inc hprev hpi hcur hflag hptr hfind
    obtain ⟨he1, he2, he3⟩ := endIncidentM_resolves st i inc hptr hfind
    rw [handleStatusChange_recovery_branch cfg cur st prev hprev hpi hcur]
    simp only [hflag, if_true]
    have hsend := sendToAllGroups_state
      (match (endIncidentM st).2.issue_start_time with
        | some _ => (((endIncidentM st).2).tick).2
        | none => (endIncidentM st).2).alert_message_ids false
      cfg.alert_groups
      (match (endIncidentM st).2.issue_start_time with
        | some _ => (((endIncidentM st).2).tick).2
        | none => (endIncidentM st).2)
    have hst2ptr :
        (match (endIncidentM st).2.issue_start_time with
          | some _ => (((endIncidentM st).2).tick).2
          | none => (endIncidentM st).2).ptr = (endIncidentM st).2.ptr := by
      cases (endIncidentM st).2.issue_start_time <;> simp [tick_ptr]
    have hst2db :
        (match (endIncidentM st).2.issue_start_time with
          | some _ => (((endIncidentM st).2).tick).2
          | none => (endIncidentM st).2).db = (endIncidentM st).2.db := by
      cases (endIncidentM st).2.issue_start_time <;> simp [tick_db]
    refine ⟨?_, ?_, trivial, trivial, ?_⟩
    · show (sendToAllGroups _ false _ cfg.alert_groups).2.1.ptr = none
      rw [hsend.2, hst2ptr, he1]
    · show ((sendToAllGroups _ false _
        cfg.alert_groups).2.1.db.findRow i).map Incident.status = _
      rw [hsend.1, hst2db]
      exact he2
    · exact List.mem_append.mpr (Or.inr (List.mem_singleton_self _))
  · intro cfg cur st prev hprev hpi hcur hflag
    rw [handleStatusChange_recovery_branch cfg cur st prev hprev hpi hcur]
    simp [hflag]
  · intro cfg st i inc hptr hfind
    obtain ⟨he1, he2, -⟩ := endIncidentM_resolves st i inc hptr hfind
    have hsome : (endIncidentM st).1.isSome := by
      have hfind2 : ((st.tick).2.tick).2.db.findRow i = some inc := by
        rw [tick_db, tick_db]
        exact hfind
      have hend := end_incident_amended.2 ((st.tick).2.tick).2.db i inc
        (st.tick).1 ((st.tick).2.tick).1 hfind2
      unfold endIncidentM
      rw [hptr]
      simp only []
      rw [hfind]
      simp only [hend]
      rfl
    unfold handleFirstCheckRecovery
    cases hinc : (endIncidentM st).1 with
    | none => rw [hinc] at hsome; exact absurd hsome (by simp)
    | some incident =>
      simp only [hinc]
      have hsend := sendToAllGroups_state [] true cfg.alert_groups
        (({ (endIncidentM st).2 with
            issue_start_time := some incident.start_time }).tick).2
      refine ⟨?_, ?_, ?_⟩
      · show (sendToAllGroups _ true _ cfg.alert_groups).2.1.ptr = none
        rw [hsend.2, tick_ptr]
        exact he1
      · show ((sendToAllGroups _ true _
          cfg.alert_groups).2.1.db.findRow i).map Incident.status = _
        rw [hsend.1, tick_db]
        exact he2
      · exact List.mem_append.mpr (Or.inr (List.mem_singleton_self _))
  · intro cfg cur st herr hcur hflag
    unfold loopIter
    rw [herr]
    simp only []
    unfold successBody
    simp only [hcur, hflag, Bool.false_and, Bool.and_false,
      Bool.not_false, Bool.true_and, if_false, if_true]
    show (handleFirstCheckRecentIncident cfg _).1.db = st.db
    rw [handleFirstCheckRecentIncident_db]
    show (getActiveM _).2.db = st.db
    exact tick_db { st with consecutive_errors := 0 }

/-- Witness for `recovery_resolution_gated_by_flag` on the concrete
mid-outage state: with recovery alerts on, the degraded→healthy
transition resolves row 1; with them off, the state is only cleared of
message references. -/
theorem recovery_resolution_gated_by_flag_witness :
    ((handleStatusChange cfgBase okSnap mstOutage).1.ptr = none ∧
     ((handleStatusChange cfgBase okSnap mstOutage).1.db.findRow 1).map
       Incident.status = some "resolved" ∧
     (handleStatusChange cfgBase okSnap mstOutage).1.alert_message_ids =
       [] ∧
     (handleStatusChange cfgBase okSnap mstOutage).1.issue_start_time =
       none ∧
     Ev.recordRecovery ∈ (handleStatusChange cfgBase okSnap mstOutage).2) ∧
    handleStatusChange cfgRecOff okSnap mstOutage =
      ({ mstOutage with
           alert_message_ids := [],
           issue_start_time := none }, ([] : List Ev)) :=
  ⟨recovery_resolution_gated_by_flag.1 cfgBase okSnap mstOutage downSnap 1
      activeRow1 rfl rfl rfl rfl rfl rfl,
   recovery_resolution_gated_by_flag.2.1 cfgRecOff okSnap mstOutage
      downSnap rfl rfl rfl rfl⟩

/-- C2 (counterexample): with `ALERT_ON_RECOVERY = False` the
degraded→healthy transition does NOT resolve the active incident — row 1
stays `active`, no event is emitted and the tracker pointer is kept —
refuting resolution "regardless of configuration flags". -/
theorem recovery_requires_flag_cex :
    ((handleStatusChange cfgRecOff okSnap mstOutage).1.db.findRow 1).map
      Incident.status = some "active" ∧
    (handleStatusChange cfgRecOff okSnap mstOutage).2 = [] ∧
    (handleStatusChange cfgRecOff okSnap mstOutage).1.ptr = some 1 := by
  exact ⟨rfl, rfl, rfl⟩

theorem handleStatusChange_down_branch (cfg : MonitorConfig)
    (cur : Snapshot) (st : Mst) (prev : Snapshot)
    (hprev : st.previous_status = some prev)
    (hpi : prev.has_issues = false) (hcur : cur.has_issues = true) :
    handleStatusChange cfg cur st =
      (if cfg.ALERT_ON_ISSUES then
        let d := shouldSendM cur.components "down" cur.region st
        if !d.1 then
          ((startIncidentM cur.description cur.region
            (some cur.components) d.2).2, [])
        else
          let o := d.2.tick
          let st1 := { o.2 with issue_start_time := some o.1 }
          let st2 := (startIncidentM cur.description cur.region
            (some cur.components) st1).2
          let r := sendToAllGroups [] true st2 cfg.alert_groups
          ({ r.2.1 with alert_message_ids := r.1 },
            r.2.2 ++ [Ev.recordAlert])
      else (st, [])) := by
  unfold handleStatusChange
  rw [hprev]
  simp only [hpi, hcur, Bool.not_false, Bool.true_and]
  rfl

/-- C3 (amended): when `ALERT_ON_ISSUES` is true, a healthy→degraded
transition appends exactly one new `status='active'` row whether or not
the deduplicator suppresses the alert — incident history is independent
of notification dedup — and when suppressed nothing at all is sent; but
when `ALERT_ON_ISSUES` is false no incident is opened and nothing is
sent. -/
theorem down_transition_opens_incident_amended :
    (∀ (cfg : MonitorConfig) (cur : Snapshot) (st : Mst) (prev : Snapshot),
      st.previous_status = some prev → prev.has_issues = false →
      cur.has_issues = true → cfg.ALERT_ON_ISSUES = true →
      st.ptr = none →
      (shouldSendM cur.components "down" cur.region st).1 = false →
      (handleStatusChange cfg cur st).1.db.rows.length =
        st.db.rows.length + 1 ∧
      (handleStatusChange cfg cur st).1.db.activeCount =
        st.db.activeCount + 1 ∧
      ((handleStatusChange cfg cur st).1.db.rows.getLast?).map
        Incident.status = some "active" ∧
      (handleStatusChange cfg cur st).2 = []) ∧
    (∀ (cfg : MonitorConfig) (cur : Snapshot) (st : Mst) (prev : Snapshot),
      st.previous_status = some prev → prev.has_issues = false →
      cur.has_issues = true → cfg.ALERT_ON_ISSUES = true →
      st.ptr = none →
      (shouldSendM cur.components "down" cur.region st).1 = true →
      (handleStatusChange cfg cur st).1.db.rows.length =
        st.db.rows.length + 1 ∧
      (handleStatusChange cfg cur st).1.db.activeCount =
        st.db.activeCount + 1 ∧
      Ev.recordAlert ∈ (handleStatusChange cfg cur st).2) ∧
    (∀ (cfg : MonitorConfig) (cur : Snapshot) (st : Mst) (prev : Snapshot),
      st.previous_status = some prev → prev.has_issues = false →
      cur.has_issues = true → cfg.ALERT_ON_ISSUES = false →
      handleStatusChange cfg cur st = (st, [])) := by
  refine ⟨?_, ?_, ?_⟩
  · intro cfg cur st prev hprev hpi hcur hflag hptr hsupp
    rw [handleStatusChange_down_branch cfg cur st prev hprev hpi hcur]
    simp only [hflag, if_true, hsupp, Bool.not_false]
    have hd2ptr : (shouldSendM cur.components "down" cur.region
        st).2.ptr = none := by
      rw [(shouldSendM_state _ _ _ _).2.1, hptr]
    have hd2db : (shouldSendM cur.components "down" cur.region
        st).2.db = st.db := (shouldSendM_state _ _ _ _).1
    have hrows := (startIncidentM_none_spec cur.description cur.region
      (some cur.components) _ hd2ptr).1
    rw [hd2db] at hrows
    refine ⟨?_, ?_, ?_, trivial⟩
    · show (startIncidentM cur.description cur.region
        (some cur.components) _).2.db.rows.length = _
      rw [hrows, List.length_append]
      rfl
    · show (startIncidentM cur.description cur.region
        (some cur.components) _).2.db.activeCount = _
      unfold IncidentsDb.activeCount
      rw [hrows, List.filter_append]
      simp
    · show ((startIncidentM cur.description cur.region
        (some cur.components) _).2.db.rows.getLast?).map
          Incident.status = _
      rw [hrows, List.getLast?_concat]
      rfl
  · intro cfg cur st prev hprev hpi hcur hflag hptr hallow
    rw [handleStatusChange_down_branch cfg cur st prev hprev hpi hcur]
    simp only [hflag, if_true, hallow, Bool.not_true, Bool.false_eq_true,
      if_false]
    set d2 := (shouldSendM cur.components "down" cur.region st).2
    set st1 : Mst :=
      { d2.tick.2 with issue_start_time := some d2.tick.1 }
    have hst1ptr : st1.ptr = none := by
      show d2.tick.2.ptr = none
      rw [tick_ptr]
      show (shouldSendM cur.components "down" cur.region st).2.ptr = none
      rw [(shouldSendM_state _ _ _ _).2.1, hptr]
    have hst1db : st1.db = st.db := by
      show d2.tick.2.db = st.db
      rw [tick_db]
      exact (shouldSendM_state _ _ _ _).1
    have hrows := (startIncidentM_none_spec cur.description cur.region
      (some cur.components) st1 hst1ptr).1
    rw [hst1db] at hrows
    set st2 := (startIncidentM cur.description cur.region
      (some cur.components) st1).2
    have hsend := sendToAllGroups_state [] true cfg.alert_groups st2
    refine ⟨?_, ?_, ?_⟩
    · show (sendToAllGroups [] true st2
        cfg.alert_groups).2.1.db.rows.length = _
      rw [hsend.1, hrows, List.length_append]
      rfl
    · show (sendToAllGroups [] true st2
        cfg.alert_groups).2.1.db.activeCount = _
      rw [hsend.1]
      unfold IncidentsDb.activeCount
      rw [hrows, List.filter_append]
      simp
    · exact List.mem_append.mpr (Or.inr (List.mem_singleton_self _))
  · intro cfg cur st prev hprev hpi hcur hflag
    rw [handleStatusChange_down_branch cfg cur st prev hprev hpi hcur]
    simp [hflag]

/-- Witness for `down_transition_opens_incident_amended`: the suppressed
transition on `mstSuppressed` still opens one active incident and sends
nothing; the allowed transition on `mstHealthy` opens one and records an
alert. -/
theorem down_transition_opens_incident_witness :
    ((handleStatusChange cfgBase downSnap mstSuppressed).1.db.rows.length
        = 1 ∧
      (handleStatusChange cfgBase downSnap
        mstSuppressed).1.db.activeCount = 1 ∧
      ((handleStatusChange cfgBase downSnap
        mstSuppressed).1.db.rows.getLast?).map Incident.status =
          some "active" ∧
      (handleStatusChange cfgBase downSnap mstSuppressed).2 = []) ∧
    ((handleStatusChange cfgBase downSnap mstHealthy).1.db.rows.length
        = 1 ∧
      (handleStatusChange cfgBase downSnap mstHealthy).1.db.activeCount
        = 1 ∧
      Ev.recordAlert ∈ (handleStatusChange cfgBase downSnap
        mstHealthy).2) := by
  constructor
  · have h := down_transition_opens_incident_amended.1 cfgBase downSnap
      mstSuppressed okSnap rfl rfl rfl rfl rfl (by decide)
    simpa [mstSuppressed, IncidentsDb.empty] using h
  · have h := down_transition_opens_incident_amended.2.1 cfgBase downSnap
      mstHealthy okSnap rfl rfl rfl rfl rfl (by decide)
    simpa [mstHealthy, IncidentsDb.empty] using h

/-- C3 (counterexample): with `ALERT_ON_ISSUES = False` a
healthy→degraded transition opens no incident at all (the store stays
empty), refuting "on every healthy→degraded transition a new incident
record is opened". -/
theorem down_transition_needs_flag_cex :
    handleStatusChange cfgIssOff downSnap mstHealthy = (mstHealthy, []) ∧
    (handleStatusChange cfgIssOff downSnap
      mstHealthy).1.db.rows.length = 0 := by
  exact ⟨rfl, rfl⟩

end Botpy
